import Mathlib

set_option maxRecDepth 400000

/-!
Verification of the "Living Ideas" backend (FastAPI + SQLAlchemy) against its
natural-language specification.

The development shallowly embeds the chat/document-synchronization core:

* `chat/main.py` — `parse_structured_answer` (the `SECTION_RE` labeled-section
  parser), `parse_markdown_update` (the delimiter-block parser with its two
  fallbacks), and the route handlers `ask_idea`, `ask_shared_idea`,
  `answer_unanswered`.
* `ideas/main.py` — `create_idea`, `get_idea`, `update_idea`, `clone_idea`,
  `hash_password`, `check_password`, and the generation helpers.
* `models.py` — the data model (`Idea`, `RepoItem`, `QAHistory`,
  `UnansweredQuestion`, `Asset`).

Modeling conventions:

* Python strings are Lean `String`/`List Char`.  Python's `\s` character class
  and `str.strip()` are modeled over the ASCII whitespace characters
  (space, tab, newline, carriage return, vertical tab, form feed); all strings
  occurring in the program's templates and sentinels are ASCII.
* `re` regular expressions are embedded operationally: the two concrete
  patterns of the source are translated into backtracking matchers with the
  same choice order (greedy `\s*`, lazy `.*?`, greedy optional groups,
  `IGNORECASE`/`DOTALL` flags, `re.match` anchoring and `re.search` scanning).
* The SQLAlchemy session is a record of lists, one per table; primary keys and
  `uuid4` values are modeled by a fresh-id counter; `created_at` ordering
  coincides with list (insertion) order, matching monotone wall-clock time.
* The OpenAI completion backend (`ask_openai`) is an external service: routes
  take an `oracle : String → String → String` argument (context, question ↦
  raw completion text) and additionally return the list of gateway calls they
  made, so that claims about the Completion Gateway being invoked (or not) are
  observable.  The gateway's sentinel outputs `"[Chat unavailable]"` /
  `"[Chat error: …]"` are particular oracle results.
* `hashlib.sha256` is an external primitive; it is modeled as an injective
  tagging function, since no claim depends on the digest's value, only on
  whether a hash is present and on equality of hashes.
-/

/-! ## Python string primitives -/

/-- Python's `\s` (ASCII range): space, tab, newline, carriage return,
vertical tab, form feed. -/
def isPySpace (c : Char) : Bool :=
  c = ' ' || c = '\t' || c = '\n' || c = '\r' || c = '\x0b' || c = '\x0c'

/-- `str.strip()` on the left, over lists of characters. -/
def stripLeftL (l : List Char) : List Char := l.dropWhile isPySpace

/-- `str.strip()` on the right, over lists of characters. -/
def stripRightL (l : List Char) : List Char := (l.reverse.dropWhile isPySpace).reverse

/-- Python `str.strip()` over lists of characters. -/
def pyStripL (l : List Char) : List Char := stripRightL (stripLeftL l)

/-- Python `str.strip()`. -/
def pyStrip (s : String) : String := String.mk (pyStripL s.toList)

/-- Python `str.strip(chars)`: remove leading and trailing characters from a
given set. -/
def stripCharsL (p : Char → Bool) (l : List Char) : List Char :=
  ((l.dropWhile p).reverse.dropWhile p).reverse

/-- Python `str.lower()` (ASCII case folding suffices for this program). -/
def pyLower (s : String) : String := String.mk (s.toList.map Char.toLower)

/-- Case-sensitive literal match: if `needle` is a prefix of `s`, return the
rest of `s`. -/
def litStart : List Char → List Char → Option (List Char)
  | [], s => some s
  | _ :: _, [] => none
  | n :: ns, c :: cs => if n = c then litStart ns cs else none

/-- Case-insensitive literal match (`re.IGNORECASE`): if `needle` matches a
prefix of `s` up to case, return the rest of `s`. -/
def matchLitCI : List Char → List Char → Option (List Char)
  | [], s => some s
  | _ :: _, [] => none
  | n :: ns, c :: cs => if n.toLower = c.toLower then matchLitCI ns cs else none

/-- Python's `needle in hay` substring test, over lists. -/
def containsSub (needle : List Char) : List Char → Bool
  | [] => (litStart needle []).isSome
  | c :: cs => (litStart needle (c :: cs)).isSome || containsSub needle cs

/-- Python's `needle in hay` substring test. -/
def pyIn (needle hay : String) : Bool := containsSub needle.toList hay.toList

/-- One step of Python `str.replace` (all occurrences, leftmost,
non-overlapping), structurally recursive on a fuel that bounds the input
length: every recursive call consumes at least one input character (a matched
occurrence consumes the needle head), so fuel `l.length` never runs out. -/
def replaceSub (n0 : Char) (ns repl : List Char) : Nat → List Char → List Char
  | 0, l => l
  | _ + 1, [] => []
  | fuel + 1, c :: cs =>
    if c = n0 then
      match litStart ns cs with
      | some rest => repl ++ replaceSub n0 ns repl fuel rest
      | none => c :: replaceSub n0 ns repl fuel cs
    else c :: replaceSub n0 ns repl fuel cs

/-- Python `str.replace(needle, repl)`.  The program never calls it with an
empty needle, so that case is modeled as the identity. -/
def pyReplace (needle repl s : String) : String :=
  match needle.toList with
  | [] => s
  | n0 :: ns => String.mk (replaceSub n0 ns repl.toList s.toList.length s.toList)

/-- Python `"sep".join(xs)`. -/
def joinSep (sep : String) : List String → String
  | [] => ""
  | [x] => x
  | x :: y :: xs => x ++ sep ++ joinSep sep (y :: xs)

/-- Python `str.split('\n')`, over lists; never returns an empty list. -/
def splitNl : List Char → List (List Char)
  | [] => [[]]
  | c :: cs =>
    match splitNl cs, decide (c = '\n') with
    | ls, true => [] :: ls
    | l :: ls, false => (c :: l) :: ls
    | [], false => [[c]]

/-- The last `n` elements of a list (used to model
`ORDER BY created_at DESC LIMIT n` followed by `reversed(...)`, i.e. the `n`
most recent rows in chronological order, given insertion-ordered tables). -/
def lastN {α : Type} (n : Nat) (l : List α) : List α := l.drop (l.length - n)

/-! ## The backtracking pieces shared by both regex embeddings -/

/-- The candidate remainders of greedy `\s*` at the current position, most
characters consumed first (Python's greedy backtracking order). -/
def wsSplits : List Char → List (List Char)
  | [] => [[]]
  | c :: cs => if isPySpace c then wsSplits cs ++ [c :: cs] else [c :: cs]

/-- The candidate `(content, rest)` splits of lazy `(.*?)\n` under `DOTALL`:
for each newline of the input, earliest first, the text before it and the text
after it. -/
def lazySplitsNl : List Char → List (List Char × List Char)
  | [] => []
  | c :: cs =>
    let tailSplits := (lazySplitsNl cs).map (fun p => (c :: p.1, p.2))
    if c = '\n' then ([], cs) :: tailSplits else tailSplits

/-- Lazy `(.*?)` up to the first case-insensitive occurrence of `needle`
(nothing follows the needle in the pattern, so the first hit wins):
returns the content before the hit and the rest after it. -/
def lazyUntilCI (needle : List Char) : List Char → Option (List Char × List Char)
  | [] => (matchLitCI needle []).map (fun r => ([], r))
  | c :: cs =>
    match matchLitCI needle (c :: cs) with
    | some r => some ([], r)
    | none => (lazyUntilCI needle cs).map (fun p => (c :: p.1, p.2))

/-! ## `parse_structured_answer` (chat/main.py, SECTION_RE)

The source pattern, compiled with `re.IGNORECASE | re.DOTALL` and applied with
`re.match` to the stripped input:

    ^\s*ANSWER:\s*(?P<answer>.*?)\n
    (?:UPDATED_TITLE:\s*(?P<title>.*?)\n)?
    (?:UPDATED_PUBLIC_MD:\s*(?P<pub>.*?)\n)?
    (?:UPDATED_PRIVATE_MD:\s*(?P<priv>.*))?\s*$

Each stage below is one optional group with its continuation, in the engine's
preference order: an optional group first tries to match (greedily), falling
back to skipping it; `\s*` candidates are greedy, `.*?` candidates lazy. -/

def ansLit : List Char := "ANSWER:".toList
def titleLit : List Char := "UPDATED_TITLE:".toList
def pubLit : List Char := "UPDATED_PUBLIC_MD:".toList
def privLit : List Char := "UPDATED_PRIVATE_MD:".toList

/-- Final stage: `(?:UPDATED_PRIVATE_MD:\s*(?P<priv>.*))?\s*$`.
If the literal matches, greedy `\s*` then greedy `.*` always complete, with
the group capturing everything after the consumed whitespace; otherwise the
group is skipped and `\s*$` requires the rest to be all whitespace. -/
def stagePriv (s : List Char) : Option (Option (List Char)) :=
  match matchLitCI privLit s with
  | some rest => some (some (rest.dropWhile isPySpace))
  | none => if (s.dropWhile isPySpace).isEmpty then some none else none

/-- Generic `LIT \s* (group .*?) \n` followed by a continuation, with the
engine's backtracking order. -/
def groupScan {α : Type} (lit : List Char) (next : List Char → Option α)
    (s : List Char) : Option (List Char × α) :=
  (matchLitCI lit s).bind fun r =>
    (wsSplits r).findSome? fun r1 =>
      (lazySplitsNl r1).findSome? fun p =>
        (next p.2).map (fun a => (p.1, a))

/-- `(?:UPDATED_PUBLIC_MD:\s*(?P<pub>.*?)\n)?` with `stagePriv` after it. -/
def stagePub (s : List Char) : Option (Option (List Char) × Option (List Char)) :=
  match groupScan pubLit stagePriv s with
  | some (content, pv) => some (some content, pv)
  | none => (stagePriv s).map (fun pv => (none, pv))

/-- `(?:UPDATED_TITLE:\s*(?P<title>.*?)\n)?` with `stagePub` after it. -/
def stageTitle (s : List Char) :
    Option (Option (List Char) × Option (List Char) × Option (List Char)) :=
  match groupScan titleLit stagePub s with
  | some (content, rest) => some (some content, rest)
  | none => (stagePub s).map (fun rest => (none, rest))

/-- The whole `SECTION_RE.match`: `^\s*ANSWER:\s*(?P<answer>.*?)\n` with
`stageTitle` after it.  Returns the four captured groups on success. -/
def sectionMatch (s : List Char) :
    Option (List Char × Option (List Char) × Option (List Char) × Option (List Char)) :=
  (wsSplits s).findSome? (groupScan ansLit stageTitle)

/-- The parsed result of `parse_structured_answer`: `answer` plus the three
optional structured fields (the Python dict keys `answer`/`title`/`pub`/`priv`). -/
structure ParsedAnswer where
  answer : String
  title : Option String
  pub : Option String
  priv : Option String
deriving Repr, DecidableEq

/-- Python `(m.group(g) or "").strip() or None`. -/
def noneIfEmptyStripped (o : Option (List Char)) : Option String :=
  match o with
  | none => none
  | some l => if pyStripL l = [] then none else some (String.mk (pyStripL l))

/-- `parse_structured_answer` (chat/main.py lines 44–66): match `SECTION_RE`
against the stripped input; on failure return the whole stripped text as the
answer with `None` structured fields. -/
def parse_structured_answer (raw : String) : ParsedAnswer :=
  let s := pyStripL raw.toList
  match sectionMatch s with
  | none => { answer := String.mk s, title := none, pub := none, priv := none }
  | some (a, t, pb, pv) =>
    { answer := String.mk (pyStripL a)
      title := noneIfEmptyStripped t
      pub := noneIfEmptyStripped pb
      priv := noneIfEmptyStripped pv }




/-! ## `parse_markdown_update` (chat/main.py lines 69–132)

Strategy 2 of the Response Parser.  The two source patterns, compiled with
`re.DOTALL | re.IGNORECASE` and applied with `re.search`:

    ### PUBLIC_MD_START\s*\n(.*?)\n### PUBLIC_MD_END
    ### PRIVATE_MD_START\s*\n(.*?)\n### PRIVATE_MD_END

`re.search` scans candidate start positions left to right; at each position
the pattern is matched with greedy `\s*` and lazy `(.*?)`; nothing follows the
end marker in the pattern, so the first end-marker hit completes the match. -/

def pubStartM : List Char := "### PUBLIC_MD_START".toList
def pubEndM : List Char := "### PUBLIC_MD_END".toList
def privStartM : List Char := "### PRIVATE_MD_START".toList
def privEndM : List Char := "### PRIVATE_MD_END".toList

/-- After a `\s*` candidate: the literal `\n`, then the lazy group up to the
first `\n ENDMARKER` hit. -/
def nlContent (endM : List Char) : List Char → Option (List Char)
  | c :: r2 => if c = '\n' then (lazyUntilCI ('\n' :: endM) r2).map Prod.fst else none
  | [] => none

/-- The block pattern anchored at the current position:
`STARTMARKER \s*\n (.*?) \n ENDMARKER`, returning the group-1 content. -/
def tryBlock (startM endM s : List Char) : Option (List Char) :=
  (matchLitCI startM s).bind fun rest =>
    (wsSplits rest).findSome? (nlContent endM)

/-- `re.search` for the block pattern: first position (left to right) where
`tryBlock` succeeds. -/
def searchBlock (startM endM : List Char) : List Char → Option (List Char)
  | [] => none
  | c :: cs =>
    match tryBlock startM endM (c :: cs) with
    | some r => some r
    | none => searchBlock startM endM cs

/-- Result type of `parse_markdown_update` (the Python dict with keys
`public_md`/`private_md`). -/
structure MdUpdate where
  public_md : String
  private_md : String
deriving Repr, DecidableEq

/-- Current section of the fallback line scanner. -/
inductive ScanSect
  | pub
  | priv
deriving Repr, DecidableEq

/-- The fallback line scanner of `parse_markdown_update` (lines 100–120):
keyed on the words public/private plus start/md/end in the lowercased,
stripped line. -/
def scanLines : Option ScanSect → List (List Char) → List (List Char) × List (List Char)
  | _, [] => ([], [])
  | cur, line :: rest =>
    let low := pyStripL (line.map Char.toLower)
    if containsSub "public".toList low &&
        (containsSub "start".toList low || containsSub "md".toList low) then
      scanLines (some .pub) rest
    else if containsSub "private".toList low &&
        (containsSub "start".toList low || containsSub "md".toList low) then
      scanLines (some .priv) rest
    else if containsSub "end".toList low && cur.isSome then
      scanLines none rest
    else
      let (p, v) := scanLines cur rest
      match cur with
      | some .pub => (line :: p, v)
      | some .priv => (p, line :: v)
      | none => (p, v)

/-- `'\n'.join(...)` over lists of characters. -/
def joinNlL (ls : List (List Char)) : List Char := (ls.intersperse ['\n']).flatten

/-- `parse_markdown_update` (chat/main.py lines 69–132): try the two delimiter
patterns; if both match, return the stripped group contents; otherwise run the
heuristic line scan; otherwise treat the whole response as public markdown. -/
def parse_markdown_update (raw : String) : MdUpdate :=
  let s := raw.toList
  match searchBlock pubStartM pubEndM s, searchBlock privStartM privEndM s with
  | some p, some v => { public_md := String.mk (pyStripL p), private_md := String.mk (pyStripL v) }
  | _, _ =>
    let lines := splitNl s
    let pv := scanLines none lines
    if pv.1 ≠ [] || pv.2 ≠ [] then
      { public_md := String.mk (pyStripL (joinNlL pv.1))
        private_md := String.mk (pyStripL (joinNlL pv.2)) }
    else
      { public_md := String.mk (pyStripL s), private_md := "" }



/-! ## Data model (models.py) and session state

Tables are lists in insertion order; `created_at` is represented by that
order (wall-clock time is monotone across inserts).  Primary keys and `uuid4`
values are drawn from a fresh-id counter `next_id`. -/

/-- `models.Idea`. -/
structure Idea where
  id : Nat
  user_id : Nat
  title : String
  public_md : Option String
  private_md : Option String
  visibility : String
  parent_id : Option Nat := none
  clonable : Bool := true
  password_hash : Option String := none
  share_hash : Nat
deriving Repr, DecidableEq

/-- `models.RepoItem`. -/
structure RepoItem where
  id : Nat
  idea_id : Nat
  name : String
  type : String
  url : Option String := none
  content : String := ""
  visibility : String
deriving Repr, DecidableEq

/-- `models.QAHistory` (one row; `created_at` is the position in the table). -/
structure QAHistory where
  idea_id : Nat
  question : String
  answer : String
deriving Repr, DecidableEq

/-- `models.UnansweredQuestion`. -/
structure UnansweredQuestion where
  id : Nat
  idea_id : Nat
  question : String
deriving Repr, DecidableEq

/-- `models.Asset`. -/
structure Asset where
  idea_id : Nat
  title : String
  url : String
  visibility : String
deriving Repr, DecidableEq

/-- The database session state. -/
structure DB where
  ideas : List Idea
  repo_items : List RepoItem
  qa_history : List QAHistory
  unanswered : List UnansweredQuestion
  assets : List Asset
  next_id : Nat
deriving Repr, DecidableEq

/-- The completion backend (`ask_openai`): context and question to raw
response text.  Sentinel outputs are particular values of this function. -/
abbrev Oracle := String → String → String

/-- An HTTP-level route outcome: a value, or an `HTTPException`. -/
inductive RouteResult (α : Type)
  | ok (val : α)
  | err (status : Nat) (detail : String)
deriving Repr, DecidableEq

/-- Python truthiness of an optional string (`None` and `""` are falsy). -/
def pyTruthyOpt : Option String → Bool
  | none => false
  | some s => s != ""

/-- Python `x or default` for an optional string (`None` and `""` both fall
through to the default). -/
def pyOrStr (o : Option String) (d : String) : String :=
  match o with
  | none => d
  | some s => if s == "" then d else s

/-! ## ideas/main.py helpers -/

/-- `hash_password` (ideas/main.py line 53): `hashlib.sha256` is an external
primitive, modeled as an injective tagging function — no claim depends on the
digest's value, only on presence and equality of hashes. -/
def hash_password (pw : String) : String := "sha256:" ++ pw

/-- `check_password` (ideas/main.py line 57): `hash_password(pw) == hash_val`.
`hash_val` is the nullable column value; in Python `str == None` is `False`. -/
def check_password (pw : String) (hash_val : Option String) : Bool :=
  match hash_val with
  | some h => hash_password pw == h
  | none => false

/-- The shared-route password gate (chat/main.py line 295 and
share/main.py line 27): `not password or not check_password(...)` fails. -/
def shared_password_gate (password : Option String) (idea : Idea) : Bool :=
  match password with
  | none => false
  | some p => if p == "" then false else check_password p idea.password_hash

/-- `generate_title` (ideas/main.py lines 61–86).  Returns the cleaned title
and the gateway calls made. -/
def generate_title (oracle : Oracle) (title : String) (notes : Option String)
    (links : List String) (summary : Option String) : String × List (String × String) :=
  let context := pyStrip ("\nTITLE (user-supplied): " ++ title ++
    "\nSUMMARY: " ++ pyOrStr summary "" ++
    "\nNOTES: " ++ pyOrStr notes "" ++
    "\nLINKS: " ++ joinSep ", " links ++ "\n")
  let prompt := pyStrip ("\nCraft a concise, compelling idea title (≤ 60 characters) from the context below.\nAvoid trailing punctuation and do not wrap in quotes. Return ONLY the title text.\n\nContext:\n" ++ context ++ "\n")
  let t := pyStrip (oracle prompt "Generate idea title")
  let cleaned := String.mk (stripCharsL (fun c => c = Char.ofNat 39)
    (stripCharsL (fun c => c = '"') (pyStripL (pyReplace "\n" " " t).toList)))
  (cleaned, [(prompt, "Generate idea title")])

/-- `generate_markdown_from_submission` (ideas/main.py lines 89–135).
Returns `(public_md, private_md, raw context)` and the gateway calls made. -/
def generate_markdown_from_submission (oracle : Oracle) (title : String)
    (notes : Option String) (links : List String) (summary : Option String) :
    (String × String × String) × List (String × String) :=
  let context := "\nTITLE\n" ++ title ++ "\n\nSUMMARY\n" ++ pyOrStr summary "" ++
    "\n\nNOTES\n" ++ pyOrStr notes "" ++ "\n\nLINKS\n" ++ joinSep ", " links ++ "\n"
  let public_prompt := pyStrip ("\nTurn this into a clear, inspiring public-facing markdown page.\n\nRules:\n- Do NOT include a top-level H1 title at the start (the app renders the title separately).\n- Start with a short value-focused intro paragraph (no heading).\n- Use section headings starting from \x27##\x27 (H2) and below.\n- Keep it crisp and scannable.\n\nSource context:\n" ++ context ++ "\n")
  let private_prompt := pyStrip ("\nTurn this into exhaustive private notes for the creator.\n- Include assumptions, risks, open questions, KPIs, draft milestones.\n- Use markdown with \x27##\x27 and lower. Avoid a top-level H1.\n\nSource context:\n" ++ context ++ "\n")
  let public_md := oracle public_prompt "Generate public markdown page"
  let private_md := oracle private_prompt "Generate private markdown page"
  ((public_md, private_md, context),
    [(public_prompt, "Generate public markdown page"),
     (private_prompt, "Generate private markdown page")])

/-- `_safe_json_list` (ideas/main.py lines 138–146).  `json.loads` is an
external stdlib primitive, supplied as `jsonLoads`: `some items` when the raw
text parses as a JSON list (items already passed through `str`), `none` when
parsing fails or yields a non-list. -/
def safe_json_list (jsonLoads : String → Option (List String)) (raw : String) :
    List String :=
  match jsonLoads raw with
  | some data => (data.map pyStrip).filter (fun x => x != "")
  | none =>
    ((splitNl raw.toList).filter (fun line => pyStripL line ≠ [])).map
      (fun line => pyStrip (String.mk
        (stripCharsL (fun c => c = '-' || c = '•' || c = ' ') line)))

/-- `generate_clarifying_questions` (ideas/main.py lines 149–172). -/
def generate_clarifying_questions (oracle : Oracle)
    (jsonLoads : String → Option (List String))
    (title public_md private_md : String) : List String × List (String × String) :=
  let prompt := pyStrip ("\nYou are helping improve an idea page.\n\nTITLE: " ++ title ++
    "\n\nPUBLIC MARKDOWN:\n" ++ (if public_md == "" then "" else public_md) ++
    "\n\nPRIVATE MARKDOWN:\n" ++ (if private_md == "" then "" else private_md) ++
    "\n\nProduce 3-5 short, specific clarifying questions that, if answered by the creator,\nwould materially improve the public page. Return ONLY a valid JSON list of strings.\nExample:\n[\"Who is the target audience?\", \"What is the key outcome?\", \"What timeline do you have?\"]\n")
  let raw := oracle prompt "Generate clarifying questions"
  ((safe_json_list jsonLoads raw).take 5, [(prompt, "Generate clarifying questions")])

/-! ## ideas/main.py routes -/

/-- `IdeaSubmission` (ideas/main.py lines 16–23). -/
structure IdeaSubmission where
  title : String
  notes : Option String := none
  links : List String := []
  summary : Option String := none
  visibility : String := "public"
  password : Option String := none
  clonable : Bool := true
deriving Repr, DecidableEq

/-- `UpdateIdeaRequest` (ideas/main.py lines 26–32). -/
structure UpdateIdeaRequest where
  title : Option String := none
  public_md : Option String := none
  private_md : Option String := none
  visibility : Option String := none
  password : Option String := none
  clonable : Option Bool := none
deriving Repr, DecidableEq

/-- `session.query(models.Idea).get(idea_id)`. -/
def findIdea (db : DB) (idea_id : Nat) : Option Idea :=
  db.ideas.find? (fun x => x.id == idea_id)

/-- `create_idea` (ideas/main.py lines 177–240): generate title and markdown,
enforce the password requirement, insert the `Idea` and the raw-submission
`RepoItem`, then seed clarifying questions best-effort.  Returns the created
`Idea`, the new state, and the gateway calls made. -/
def create_idea (db : DB) (oracle : Oracle)
    (jsonLoads : String → Option (List String)) (current_user : Nat)
    (req : IdeaSubmission) : RouteResult Idea × DB × List (String × String) :=
  let gt := generate_title oracle req.title req.notes req.links req.summary
  let gm := generate_markdown_from_submission oracle gt.1 req.notes req.links req.summary
  let final_title := gt.1
  let public_md := gm.1.1
  let private_md := gm.1.2.1
  let raw_context := gm.1.2.2
  let calls0 := gt.2 ++ gm.2
  if req.visibility == "password" && !(pyTruthyOpt req.password) then
    (.err 400 "Password required for password-protected ideas", db, calls0)
  else
    let password_hash : Option String :=
      if req.visibility == "password" then some (hash_password (req.password.getD ""))
      else none
    let idea : Idea :=
      { id := db.next_id
        user_id := current_user
        title := final_title
        public_md := some public_md
        private_md := some private_md
        visibility := req.visibility
        parent_id := none
        clonable := req.clonable
        password_hash := password_hash
        share_hash := db.next_id }
    let raw_repo_item : RepoItem :=
      { id := db.next_id + 1
        idea_id := idea.id
        name := "Raw Submission"
        type := "raw_submission"
        url := none
        content := raw_context
        visibility := "private" }
    let gq := generate_clarifying_questions oracle jsonLoads idea.title
      (pyOrStr idea.public_md "") (pyOrStr idea.private_md "")
    let uqs := (gq.1.enum).map
      (fun qi => ({ id := db.next_id + 2 + qi.1, idea_id := idea.id, question := qi.2 } : UnansweredQuestion))
    (.ok idea,
      { db with
          ideas := db.ideas ++ [idea]
          repo_items := db.repo_items ++ [raw_repo_item]
          unanswered := db.unanswered ++ uqs
          next_id := db.next_id + 2 + gq.1.length },
      calls0 ++ gq.2)

/-- `get_idea` (ideas/main.py lines 243–268): privacy and password gating for
content reads. -/
def get_idea (db : DB) (current_user : Nat) (idea_id : Nat)
    (password : Option String) : RouteResult Idea :=
  match findIdea db idea_id with
  | none => .err 404 "Idea not found"
  | some idea =>
    if idea.visibility == "private" && idea.user_id != current_user then
      .err 403 "This idea is private"
    else if idea.visibility == "password" && idea.user_id != current_user then
      if !(shared_password_gate password idea) then
        .err 403 "Password required or incorrect"
      else .ok idea
    else .ok idea

/-- `update_idea` (ideas/main.py lines 271–305): owner-only field-wise patch;
each field is applied exactly when present (`is not None`). -/
def update_idea (db : DB) (current_user : Nat) (idea_id : Nat)
    (req : UpdateIdeaRequest) : RouteResult Idea × DB :=
  match findIdea db idea_id with
  | none => (.err 404 "Idea not found", db)
  | some idea =>
    if idea.user_id != current_user then (.err 403 "Not your idea", db)
    else
      let idea' : Idea :=
        { idea with
            title := req.title.getD idea.title
            public_md := match req.public_md with
              | some v => some v
              | none => idea.public_md
            private_md := match req.private_md with
              | some v => some v
              | none => idea.private_md
            visibility := req.visibility.getD idea.visibility
            password_hash := match req.password with
              | some pw => some (hash_password pw)
              | none => idea.password_hash
            clonable := req.clonable.getD idea.clonable }
      (.ok idea',
        { db with ideas := db.ideas.map (fun x => if x.id == idea.id then idea' else x) })

/-- `clone_idea` (ideas/main.py lines 325–357): privacy and clonability
gating, then a fresh `Idea` with `visibility = "private"`, lineage via
`parent_id`, and both markdown bodies copied. -/
def clone_idea (db : DB) (current_user : Nat) (idea_id : Nat) :
    RouteResult Idea × DB :=
  match findIdea db idea_id with
  | none => (.err 404 "Idea not found", db)
  | some parent =>
    if parent.visibility == "private" && parent.user_id != current_user then
      (.err 403 "This idea is private", db)
    else if !parent.clonable then
      (.err 403 "Cloning not allowed for this idea", db)
    else
      let clone : Idea :=
        { id := db.next_id
          user_id := current_user
          title := "Clone of " ++ parent.title
          public_md := parent.public_md
          private_md := parent.private_md
          visibility := "private"
          parent_id := some parent.id
          clonable := parent.clonable
          password_hash := none
          share_hash := db.next_id }
      (.ok clone, { db with ideas := db.ideas ++ [clone], next_id := db.next_id + 1 })

/-! ## chat/main.py routes -/

/-- `AskResponse` (chat/main.py lines 18–25); images and references are
(title, url) pairs. -/
structure AskResponse where
  answer : String
  images : List (String × String) := []
  references : List (String × Option String) := []
  updated_public_md : Option String := none
  updated_private_md : Option String := none
  updated_title : Option String := none
deriving Repr, DecidableEq

/-- The recent Q&A history text: last `n` rows for the idea, oldest to newest,
rendered as alternating `Q:`/`A:` lines (chat/main.py lines 150–157
with `n = 5`, lines 299–306 with `n = 3`). -/
def history_text (db : DB) (idea : Idea) (n : Nat) : String :=
  joinSep "\n" ((lastN n (db.qa_history.filter (fun h => h.idea_id == idea.id))).map
    (fun h => "Q: " ++ h.question ++ "\nA: " ++ h.answer))

/-- The persistent-QA section: repo items of type `qa` whose visibility is in
the allowed set, with the `Q: `/`A: ` prefixes stripped from name/content
(chat/main.py lines 160–165 and 309–314). -/
def qa_items_text (db : DB) (idea : Idea) (allowed : List String) : String :=
  joinSep "\n" ((db.repo_items.filter (fun r =>
      r.idea_id == idea.id && r.type == "qa" && allowed.contains r.visibility)).map
    (fun r => "Q: " ++ pyReplace "Q: " "" r.name ++ "\nA: " ++ pyReplace "A: " "" r.content))

/-- The public-assets section (chat/main.py lines 168 and 317). -/
def assets_text (db : DB) (idea : Idea) : String :=
  joinSep "\n" ((db.assets.filter (fun a => a.idea_id == idea.id && a.visibility == "public")).map
    (fun a => "- " ++ a.title ++ ": " ++ a.url))

/-- The owner-context prompt of `ask_idea` (chat/main.py lines 171–212):
includes BOTH markdown bodies and public+private persistent QA. -/
def ask_idea_context (db : DB) (idea : Idea) : String :=
  pyStrip ("\nYou are the *living document* for the idea below.\nYour goals every turn:\n1) Answer the user\x27s message concisely.\n2) Identify gaps and (if needed) ask 1–3 short clarifying questions.\n3) If the user supplied new info or asked for edits, output the FULL updated markdown (public/private).\n4) If an improved title would help, propose one (≤ 60 chars, no trailing punctuation).\n\nIMPORTANT RULES:\n- The app renders the title separately. In your markdown outputs, DO NOT include a top-level H1.\n- Start public markdown with a short intro paragraph (no heading), then use headings from \x27##\x27 and below.\n- If no change is needed in a section, leave it completely empty.\n\nTEMPLATE (exactly this; no extra text before/after):\n\nANSWER:\n<short answer or your questions to the user>\n\nUPDATED_TITLE:\n<concise improved title or leave empty if no change>\n\nUPDATED_PUBLIC_MD:\n<full public markdown without a top-level H1, or leave empty if no change>\n\nUPDATED_PRIVATE_MD:\n<full private markdown without a top-level H1, or leave empty if no change>\n\n# CURRENT PUBLIC MARKDOWN\n" ++
    pyOrStr idea.public_md "" ++
    "\n\n# CURRENT PRIVATE MARKDOWN\n" ++
    pyOrStr idea.private_md "" ++
    "\n\n# PERSISTENT QA\n" ++
    qa_items_text db idea ["public", "private"] ++
    "\n\n# RECENT Q&A HISTORY\n" ++
    history_text db idea 5 ++
    "\n\n# PUBLIC ASSETS\n" ++
    assets_text db idea ++ "\n")

/-- The public-context prompt of `ask_shared_idea` (chat/main.py lines
319–354): public markdown, public persistent QA, last-3 history, public
assets; no private content. -/
def ask_shared_context (db : DB) (idea : Idea) : String :=
  pyStrip ("\nYou are the *public-facing* living document for the idea below.\nAnswer questions concisely. If the user requests edits to the public page,\nyou may propose the FULL updated public markdown. Do not include any private content.\n\nIMPORTANT RULES:\n- The app renders the title separately. Do NOT include a top-level H1 in markdown.\n- Start with a short intro paragraph (no heading), then use headings from \x27##\x27 and below.\n- Do not propose title changes in public context.\n\nTEMPLATE (exactly this):\n\nANSWER:\n<short answer to the user\x27s message>\n\nUPDATED_TITLE:\n<leave empty — not available in public context>\n\nUPDATED_PUBLIC_MD:\n<full public markdown (no top-level H1), or leave empty if no change>\n\nUPDATED_PRIVATE_MD:\n<leave empty — not available in public context>\n\n# CURRENT PUBLIC MARKDOWN\n" ++
    pyOrStr idea.public_md "" ++
    "\n\n# PUBLIC PERSISTENT QA\n" ++
    qa_items_text db idea ["public"] ++
    "\n\n# RECENT PUBLIC Q&A (short)\n" ++
    history_text db idea 3 ++
    "\n\n# PUBLIC ASSETS\n" ++
    assets_text db idea ++ "\n")

/-- The sentinel test of both chat routes (chat/main.py lines 215 and 357):
`"[Chat unavailable]" in raw or "[Chat error" in raw`. -/
def sentinelHit (raw : String) : Bool :=
  pyIn "[Chat unavailable]" raw || pyIn "[Chat error" raw

/-- `parsed["answer"] or "OK."` (chat/main.py lines 225 and 361). -/
def answer_or_ok (p : ParsedAnswer) : String :=
  if p.answer == "" then "OK." else p.answer

/-- The owner edit application of `ask_idea` (chat/main.py lines 243–253):
title applied when present, non-empty after stripping, and different from the
current title; each markdown body applied when present and non-empty. -/
def apply_owner_edits (idea : Idea) (p : ParsedAnswer) : Idea :=
  let t1 :=
    match p.title with
    | some t =>
      if t != "" && pyStrip t != "" && pyStrip t != idea.title then
        { idea with title := pyStrip t }
      else idea
    | none => idea
  let t2 :=
    match p.pub with
    | some v => if v != "" then { t1 with public_md := some v } else t1
    | none => t1
  match p.priv with
  | some v => if v != "" then { t2 with private_md := some v } else t2
  | none => t2

/-- The `images` list of an `AskResponse` (public assets). -/
def response_images (db : DB) (idea : Idea) : List (String × String) :=
  (db.assets.filter (fun a => a.idea_id == idea.id && a.visibility == "public")).map
    (fun a => (a.title, a.url))

/-- The `references` list of an `AskResponse` (public repo items). -/
def response_references (db : DB) (idea : Idea) : List (String × Option String) :=
  (db.repo_items.filter (fun r => r.idea_id == idea.id && r.visibility == "public")).map
    (fun r => (r.name, r.url))

/-- `ask_idea` (chat/main.py lines 137–268), the authenticated chat route.
Returns the route outcome, the new session state, and the gateway calls made.
NOTE (faithful to the source): the route checks neither the idea's visibility
nor the caller's ownership before composing the owner context — which contains
`private_md` and private QA — and invoking the gateway; ownership only gates
whether parsed edits are persisted. -/
def ask_idea (db : DB) (oracle : Oracle) (current_user : Nat) (idea_id : Nat)
    (question : String) : RouteResult AskResponse × DB × List (String × String) :=
  match findIdea db idea_id with
  | none => (.err 404 "Idea not found", db, [])
  | some idea =>
    let context := ask_idea_context db idea
    let raw := oracle context question
    let calls := [(context, question)]
    if sentinelHit raw then
      (.ok { answer := "Sorry, chat is unavailable right now." },
        { db with
            unanswered := db.unanswered ++
              [{ id := db.next_id, idea_id := idea.id, question := question }]
            next_id := db.next_id + 1 },
        calls)
    else
      let parsed := parse_structured_answer raw
      let answer := answer_or_ok parsed
      let db1 := { db with qa_history := db.qa_history ++ [{ idea_id := idea.id, question := question, answer := answer }] }
      let db2 :=
        if pyIn "i don\x27t know" (pyLower answer) then
          { db1 with
              unanswered := db1.unanswered ++
                [{ id := db1.next_id, idea_id := idea.id, question := question }]
              next_id := db1.next_id + 1 }
        else db1
      let db3 :=
        if current_user == idea.user_id then
          { db2 with ideas := db2.ideas.map (fun x =>
              if x.id == idea.id then apply_owner_edits x parsed else x) }
        else db2
      (.ok { answer := answer
             images := response_images db idea
             references := response_references db idea
             updated_public_md := parsed.pub
             updated_private_md := parsed.priv
             updated_title := parsed.title },
        db3, calls)

/-- `ask_shared_idea` (chat/main.py lines 273–378), the anonymous share-route
chat: visibility and password gating happen before any context is built; the
model-proposed edits are never persisted; a QAHistory row is still appended. -/
def ask_shared_idea (db : DB) (oracle : Oracle) (share_hash : Nat)
    (password : Option String) (question : String) :
    RouteResult AskResponse × DB × List (String × String) :=
  match db.ideas.find? (fun x => x.share_hash == share_hash) with
  | none => (.err 404 "Shared idea not found", db, [])
  | some idea =>
    if idea.visibility == "private" then
      (.err 403 "This idea is private and cannot be shared", db, [])
    else if idea.visibility == "password" && !(shared_password_gate password idea) then
      (.err 403 "Password required or incorrect", db, [])
    else
      let context := ask_shared_context db idea
      let raw := oracle context question
      let calls := [(context, question)]
      if sentinelHit raw then
        (.ok { answer := "Sorry, chat is unavailable right now." }, db, calls)
      else
        let parsed := parse_structured_answer raw
        let answer := answer_or_ok parsed
        (.ok { answer := answer
               images := response_images db idea
               references := response_references db idea
               updated_public_md := parsed.pub
               updated_private_md := none
               updated_title := none },
          { db with qa_history := db.qa_history ++ [{ idea_id := idea.id, question := question, answer := answer }] },
          calls)

/-- The refinement prompt of `answer_unanswered` (chat/main.py lines 437–460;
this f-string is used unstripped). -/
def refine_prompt (idea : Idea) (uq_question answer : String) : String :=
  "\nBased on this Q&A clarification, update the markdown content for this idea.\n\nCurrent Public Content:\n" ++
  pyOrStr idea.public_md "No public content yet." ++
  "\n\nCurrent Private Content:\n" ++
  pyOrStr idea.private_md "No private content yet." ++
  "\n\nNew Q&A to incorporate:\nQ: " ++ uq_question ++ "\nA: " ++ answer ++
  "\n\nPlease provide updated content in this EXACT format:\n\n### PUBLIC_MD_START\n[Updated public markdown here - include existing content plus new clarification where appropriate]\n### PUBLIC_MD_END\n### PRIVATE_MD_START\n[Updated private markdown here - include existing content plus new clarification where appropriate]\n### PRIVATE_MD_END\n\nIf no update is needed for a section, just include the existing content unchanged.\n"

/-- `answer_unanswered` (chat/main.py lines 399–482): owner-only resolution of
an `UnansweredQuestion`.  Appends one QAHistory row and one private `qa`
RepoItem, best-effort regenerates the markdown through the delimiter-block
parser (`ask_openai` never raises, so the `except` branch of the source is
unreachable in this model), deletes the UnansweredQuestion, and commits all of
it together. -/
def answer_unanswered (db : DB) (oracle : Oracle) (current_user : Nat)
    (idea_id : Nat) (uq_id : Nat) (answer : String) :
    RouteResult String × DB × List (String × String) :=
  match findIdea db idea_id with
  | none => (.err 404 "Idea not found", db, [])
  | some idea =>
    if idea.user_id != current_user then (.err 403 "Not your idea", db, [])
    else
      match db.unanswered.find? (fun u => u.id == uq_id) with
      | none => (.err 404 "Unanswered question not found", db, [])
      | some uq =>
        if uq.idea_id != idea.id then (.err 404 "Unanswered question not found", db, [])
        else
          let qa : QAHistory := { idea_id := idea.id, question := uq.question, answer := answer }
          let repo_item : RepoItem :=
            { id := db.next_id
              idea_id := idea.id
              name := "Q: " ++ uq.question
              type := "qa"
              url := none
              content := "A: " ++ answer
              visibility := "private" }
          let prompt := refine_prompt idea uq.question answer
          let raw := oracle prompt "Update markdown with clarification"
          let parsed := parse_markdown_update raw
          let idea' : Idea :=
            { idea with
                public_md := if parsed.public_md != "" then some parsed.public_md else idea.public_md
                private_md := if parsed.private_md != "" then some parsed.private_md else idea.private_md }
          (.ok "Unanswered resolved, markdown updated",
            { db with
                ideas := db.ideas.map (fun x => if x.id == idea.id then idea' else x)
                repo_items := db.repo_items ++ [repo_item]
                qa_history := db.qa_history ++ [qa]
                unanswered := db.unanswered.filter (fun u => u.id != uq_id)
                next_id := db.next_id + 1 },
            [(prompt, "Update markdown with clarification")])

/-! ## Fixtures for concrete evaluations -/

/-- Fixture: a private idea owned by user 1. -/
def privIdea : Idea :=
  { id := 10, user_id := 1, title := "Old Name", public_md := some "PUB",
    private_md := some "SECRET-XYZ", visibility := "private",
    clonable := true, share_hash := 77 }

/-- Fixture: a database holding `privIdea` together with a private `qa`
repo item. -/
def privDB : DB :=
  { ideas := [privIdea]
    repo_items := [{ id := 5, idea_id := 10, name := "Q: color?", type := "qa",
                     content := "A: SECRETQA", visibility := "private" }]
    qa_history := []
    unanswered := []
    assets := []
    next_id := 100 }

/-- Fixture: `privDB` with only the idea's `private_md` changed. -/
def privDB2 : DB :=
  { privDB with ideas := [{ privIdea with private_md := some "SECRET-ALTERED" }] }

/-- Fixture: a completion backend returning a fixed sentinel-free text. -/
def plainOracle : Oracle := fun _ _ => "hello"

/-- Fixture: a password-protected clonable parent idea of user 1. -/
def c10Parent : Idea :=
  { id := 10, user_id := 1, title := "Launch", public_md := some "P",
    private_md := some "V", visibility := "password",
    clonable := true, password_hash := some (hash_password "pw"),
    share_hash := 77 }

/-- Fixture: a database holding only `c10Parent`. -/
def c10DB : DB :=
  { ideas := [c10Parent], repo_items := [], qa_history := [], unanswered := [],
    assets := [], next_id := 100 }

/-- Fixture: a public idea of user 1, shared under hash 88. -/
def pubIdea : Idea :=
  { id := 30, user_id := 1, title := "Pub", public_md := some "P",
    private_md := some "V", visibility := "public", clonable := true,
    share_hash := 88 }

/-- Fixture: a database holding only `pubIdea`. -/
def pubDB : DB :=
  { ideas := [pubIdea], repo_items := [], qa_history := [], unanswered := [],
    assets := [], next_id := 200 }

/-- Fixture: a completion backend that is unconfigured and always returns the
unavailability sentinel. -/
def sentinelOracle : Oracle := fun _ _ => "[Chat unavailable]"

/-- Fixture: a public idea of user 3 with no password hash. -/
def c5Idea : Idea :=
  { id := 20, user_id := 3, title := "T", public_md := none, private_md := none,
    visibility := "public", clonable := true, share_hash := 22 }

/-- Fixture: a database holding only `c5Idea`. -/
def c5DB : DB :=
  { ideas := [c5Idea], repo_items := [], qa_history := [], unanswered := [],
    assets := [], next_id := 50 }

/-- Fixture: a completion backend answering the owner's rename request with
the spec's scenario output (title `Acme`, empty markdown sections). -/
def acmeOracle : Oracle :=
  fun _ _ => "ANSWER:\nDone.\nUPDATED_TITLE:\nAcme\nUPDATED_PUBLIC_MD:\n\nUPDATED_PRIVATE_MD:\n"

/-- Fixture: a database holding `pubIdea` and one unanswered question for it. -/
def c7DB : DB :=
  { ideas := [pubIdea], repo_items := [], qa_history := [],
    unanswered := [⟨60, 30, "Why now?"⟩], assets := [], next_id := 300 }

/-- Whether the stripped input starts with the case-insensitive `ANSWER:`
header — the condition for `SECTION_RE` to match at all: the pattern is
anchored by `re.match` and its leading `\s*` finds nothing to skip in
stripped text. -/
def hasAnswerHeaderCI (raw : String) : Bool :=
  (matchLitCI ansLit (pyStripL raw.toList)).isSome

/-- The 0-based positions at which `needle` matches case-insensitively inside
`text`. -/
def hitsCI (needle text : List Char) : List Nat :=
  (List.range (text.length + 1)).filter (fun i => (matchLitCI needle (text.drop i)).isSome)

/-- The number of case-insensitive occurrences of `needle` in `text`;
`countCI m t = 1` for all four delimiters is the formal reading of the
claim's "balanced blocks". -/
def countCI (needle text : List Char) : Nat := (hitsCI needle text).length

/-- An input that contains one PUBLIC and one PRIVATE delimiter block (in the
shape the refinement prompt requests), with arbitrary text around and between
them. -/
def mdTemplate (pre pub mid priv post : String) : String :=
  pre ++ "### PUBLIC_MD_START
" ++ pub ++ "
### PUBLIC_MD_END" ++ mid ++
  "### PRIVATE_MD_START
" ++ priv ++ "
### PRIVATE_MD_END" ++ post

/-! ## Claims -/

/-- C1: the claim states that for a `private` Idea, every chat or content
request by a non-owner — including an authenticated non-owner on the
`/ideas/{idea_id}/ask` route — returns authorization-denied and never invokes
the Completion Gateway (`ask_openai`).  The code VIOLATES this on the
authenticated ask route: `ask_idea` performs no visibility or ownership check
before composing the owner context and calling the gateway.  Here user 2 asks
about the private idea of user 1: the route answers `200 OK` with the model
text and the gateway is invoked exactly once (the share routes and `get_idea`
do deny, but the claim quantifies over all chat requests). -/
theorem C1_private_idea_ask_route_reaches_gateway :
    privIdea.visibility = "private" ∧ privIdea.user_id ≠ 2 ∧
    (ask_idea privDB plainOracle 2 10 "What is the plan?").1 =
      .ok { answer := "hello" } ∧
    (ask_idea privDB plainOracle 2 10 "What is the plan?").2.2.length = 1 := by
  decide

/-- C2: the claim states that a context built for a non-owner caller never
contains `private_md` or private-only QA content, and that changing only those
private fields never changes the context handed to the Completion Gateway.
The code VIOLATES this on the authenticated ask route: for non-owner user 2,
the single gateway call's context contains both the private markdown
(`SECRET-XYZ`) and the private QA content (`SECRETQA`), and editing only
`private_md` changes the context handed to the gateway. -/
theorem C2_nonowner_context_contains_private_fields :
    privIdea.user_id ≠ 2 ∧
    pyIn "SECRET-XYZ"
      (((ask_idea privDB plainOracle 2 10 "What is the plan?").2.2.headD ("", "")).1) = true ∧
    pyIn "SECRETQA"
      (((ask_idea privDB plainOracle 2 10 "What is the plan?").2.2.headD ("", "")).1) = true ∧
    (ask_idea privDB plainOracle 2 10 "What is the plan?").2.2 ≠
      (ask_idea privDB2 plainOracle 2 10 "What is the plan?").2.2 := by
  refine ⟨by decide, by decide, by decide, ?_⟩
  intro h
  have h1 : pyIn "SECRET-XYZ"
      (((ask_idea privDB plainOracle 2 10 "What is the plan?").2.2.headD ("", "")).1) = true := by
    decide
  have h2 : pyIn "SECRET-XYZ"
      (((ask_idea privDB2 plainOracle 2 10 "What is the plan?").2.2.headD ("", "")).1) = false := by
    decide
  rw [h] at h1
  rw [h1] at h2
  simp at h2

/-- C10: a successful `clone_idea` (parent found, clonable, and not a
private idea of another user) creates an Idea that is always `private`
regardless of the parent's visibility, carries `parent_id = parent.id`,
copies both markdown bodies verbatim, has title `"Clone of " ++ parent.title`,
and leaves the parent record (and every other stored idea) unchanged. -/
theorem C10_clone_functional (db : DB) (u idea_id : Nat) (parent : Idea)
    (hfind : findIdea db idea_id = some parent)
    (hclon : parent.clonable = true)
    (hpriv : ¬(parent.visibility = "private" ∧ parent.user_id ≠ u)) :
    clone_idea db u idea_id =
      (.ok { id := db.next_id, user_id := u, title := "Clone of " ++ parent.title,
             public_md := parent.public_md, private_md := parent.private_md,
             visibility := "private", parent_id := some parent.id,
             clonable := parent.clonable, password_hash := none,
             share_hash := db.next_id },
       { db with
           ideas := db.ideas ++
             [{ id := db.next_id, user_id := u, title := "Clone of " ++ parent.title,
                public_md := parent.public_md, private_md := parent.private_md,
                visibility := "private", parent_id := some parent.id,
                clonable := parent.clonable, password_hash := none,
                share_hash := db.next_id }]
           next_id := db.next_id + 1 }) := by
  have hgate : (parent.visibility == "private" && parent.user_id != u) = false := by
    by_cases h : parent.visibility = "private"
    · have h2 : parent.user_id = u := not_not.mp (fun hne => hpriv ⟨h, hne⟩)
      simp [h2]
    · simp [h]
  simp [clone_idea, hfind, hgate, hclon]

/-- C10 witness: cloning a password-protected, clonable idea of user 1 as
user 2 yields a private clone with copied bodies and lineage, leaving the
parent untouched. -/
theorem C10_clone_functional_witness :
    clone_idea c10DB 2 10 =
      (.ok { id := 100, user_id := 2, title := "Clone of Launch",
             public_md := some "P", private_md := some "V",
             visibility := "private", parent_id := some 10, clonable := true,
             password_hash := none, share_hash := 100 },
       { ideas := [c10Parent,
                   { id := 100, user_id := 2, title := "Clone of Launch",
                     public_md := some "P", private_md := some "V",
                     visibility := "private", parent_id := some 10, clonable := true,
                     password_hash := none, share_hash := 100 }],
         repo_items := [], qa_history := [], unanswered := [], assets := [],
         next_id := 101 }) := by
  have h := C10_clone_functional c10DB 2 10 c10Parent (by decide) (by decide) (by decide)
  exact h.trans (by decide)

/-- Helper: the `ideas` table after `ask_idea` is either untouched or the
image of the owner edit application at the found idea's id. -/
theorem ask_idea_ideas_cases (db : DB) (oracle : Oracle) (u idea_id : Nat)
    (q : String) :
    (ask_idea db oracle u idea_id q).2.1.ideas = db.ideas ∨
    ∃ (idea : Idea) (p : ParsedAnswer), (ask_idea db oracle u idea_id q).2.1.ideas =
      db.ideas.map (fun x => if x.id == idea.id then apply_owner_edits x p else x) := by
  unfold ask_idea
  cases heq : findIdea db idea_id with
  | none => simp
  | some idea =>
    by_cases hs : sentinelHit (oracle (ask_idea_context db idea) q) = true
    · simp [hs]
    · by_cases ho : (u == idea.user_id) = true <;>
        by_cases hk : pyIn "i don\x27t know" (pyLower (answer_or_ok (parse_structured_answer (oracle (ask_idea_context db idea) q)))) = true <;>
        simp [hs, ho, hk]
      · exact Or.inr ⟨idea, parse_structured_answer (oracle (ask_idea_context db idea) q),
          fun a _ => rfl⟩
      · exact Or.inr ⟨idea, parse_structured_answer (oracle (ask_idea_context db idea) q),
          fun a _ => rfl⟩

/-- Helper: the owner edit application never touches `password_hash`,
`visibility`, `id`, or `user_id`. -/
theorem apply_owner_edits_frame (idea : Idea) (p : ParsedAnswer) :
    (apply_owner_edits idea p).password_hash = idea.password_hash ∧
    (apply_owner_edits idea p).visibility = idea.visibility ∧
    (apply_owner_edits idea p).id = idea.id ∧
    (apply_owner_edits idea p).user_id = idea.user_id := by
  unfold apply_owner_edits
  cases p.title <;> cases p.pub <;> cases p.priv <;> simp <;>
    (repeat' split) <;> simp

/-- C5 counterexample: the claim's invariant (`password_hash` set iff
`visibility == "password"`) is NOT maintained by `update_idea`: the owner of a
public idea with no password hash patches `visibility := "password"` without
supplying a password, and the stored idea ends up with
`visibility = "password"` and `password_hash = none`. -/
theorem C5_cex_update_breaks_password_invariant :
    (update_idea c5DB 3 20 { visibility := some "password" }).2.ideas =
      [{ c5Idea with visibility := "password" }] ∧
    ¬(({ c5Idea with visibility := "password" } : Idea).password_hash.isSome ↔
      ({ c5Idea with visibility := "password" } : Idea).visibility = "password") := by
  decide

/-- C5 (amended): the invariant `password_hash` set iff
`visibility == "password"` holds for every Idea produced by `create_idea` or
`clone_idea`, and is preserved by chat-applied edits (`ask_idea` never touches
`password_hash` or `visibility`); `update_idea`, however, does not maintain it
(see the counterexample: it can set `visibility` to `"password"` without a
hash, leave a stale hash behind when leaving `"password"` visibility, or store
a hash under a non-password visibility). -/
theorem C5_amended_password_invariant :
    (∀ db oracle jsonLoads u req idea db' calls,
       create_idea db oracle jsonLoads u req = (.ok idea, db', calls) →
       (idea.password_hash.isSome ↔ idea.visibility = "password")) ∧
    (∀ db u idea_id idea db',
       clone_idea db u idea_id = (.ok idea, db') →
       (idea.password_hash.isSome ↔ idea.visibility = "password")) ∧
    (∀ db oracle u idea_id q i,
       (∀ j ∈ db.ideas, j.password_hash.isSome ↔ j.visibility = "password") →
       i ∈ (ask_idea db oracle u idea_id q).2.1.ideas →
       (i.password_hash.isSome ↔ i.visibility = "password")) := by
  refine ⟨?_, ?_, ?_⟩
  · intro db oracle jsonLoads u req idea db' calls h
    unfold create_idea at h
    split at h
    · simp at h
    · simp only [Prod.mk.injEq, RouteResult.ok.injEq] at h
      obtain ⟨hi, -, -⟩ := h
      subst hi
      by_cases hv : req.visibility = "password" <;> simp [hv]
  · intro db u idea_id idea db' h
    unfold clone_idea at h
    split at h
    · simp at h
    · split at h
      · simp at h
      · split at h
        · simp at h
        · simp only [Prod.mk.injEq, RouteResult.ok.injEq] at h
          obtain ⟨hi, -⟩ := h
          subst hi
          simp
  · intro db oracle u idea_id q i hall hmem
    rcases ask_idea_ideas_cases db oracle u idea_id q with hsh | ⟨idea, p, hsh⟩
    · rw [hsh] at hmem
      exact hall i hmem
    · rw [hsh] at hmem
      simp only [List.mem_map] at hmem
      obtain ⟨j, hj, hij⟩ := hmem
      by_cases hjid : (j.id == idea.id) = true
      · rw [if_pos hjid] at hij
        have hf := apply_owner_edits_frame j p
        rw [← hij, hf.1, hf.2.1]
        exact hall j hj
      · rw [if_neg hjid] at hij
        rw [← hij]
        exact hall j hj

/-- C5 witness: the clone part of the amended invariant, instantiated at the
password-protected parent fixture — the produced clone satisfies the
invariant. -/
theorem C5_amended_password_invariant_witness :
    (({ id := 100, user_id := 2, title := "Clone of Launch", public_md := some "P",
        private_md := some "V", visibility := "private", parent_id := some 10,
        clonable := true, password_hash := none, share_hash := 100 } : Idea).password_hash.isSome ↔
      ({ id := 100, user_id := 2, title := "Clone of Launch", public_md := some "P",
         private_md := some "V", visibility := "private", parent_id := some 10,
         clonable := true, password_hash := none, share_hash := 100 } : Idea).visibility =
        "password") :=
  C5_amended_password_invariant.2.1 c10DB 2 10 _ (clone_idea c10DB 2 10).2 (by decide)

/-- C4 counterexample: the claim says that on EVERY chat route a completion
sentinel leads to exactly one `UnansweredQuestion` record being created.  On
the share route the code returns the apology but records NOTHING: here a
sentinel completion on `ask_shared_idea` leaves the database completely
unchanged (zero UnansweredQuestion rows), refuting the claim as stated. -/
theorem C4_cex_shared_sentinel_creates_no_unanswered :
    (ask_shared_idea pubDB sentinelOracle 88 none "Is it free?").1 =
      .ok { answer := "Sorry, chat is unavailable right now." } ∧
    (ask_shared_idea pubDB sentinelOracle 88 none "Is it free?").2.1 = pubDB ∧
    (ask_shared_idea pubDB sentinelOracle 88 none "Is it free?").2.1.unanswered.length = 0 := by
  decide

/-- C4 (amended): when the Completion Gateway returns a sentinel
(`"[Chat unavailable]"` or text containing `"[Chat error"`), the caller
receives the fixed apology string, no QAHistory entry is appended, and the
Idea's title/public_md/private_md are unchanged; on the authenticated
`/ideas/{idea_id}/ask` route exactly one UnansweredQuestion holding the
caller's question is additionally created, while on the share route nothing
at all is recorded. -/
theorem C4_amended_sentinel_handling (db : DB) (oracle : Oracle) (q : String) :
    (∀ u idea_id idea, findIdea db idea_id = some idea →
       sentinelHit (oracle (ask_idea_context db idea) q) = true →
       ask_idea db oracle u idea_id q =
         (.ok { answer := "Sorry, chat is unavailable right now." },
          { db with
              unanswered := db.unanswered ++
                [{ id := db.next_id, idea_id := idea.id, question := q }]
              next_id := db.next_id + 1 },
          [(ask_idea_context db idea, q)])) ∧
    (∀ sh pw idea, db.ideas.find? (fun x => x.share_hash == sh) = some idea →
       idea.visibility ≠ "private" →
       (idea.visibility = "password" → shared_password_gate pw idea = true) →
       sentinelHit (oracle (ask_shared_context db idea) q) = true →
       ask_shared_idea db oracle sh pw q =
         (.ok { answer := "Sorry, chat is unavailable right now." }, db,
          [(ask_shared_context db idea, q)])) := by
  constructor
  · intro u idea_id idea hfind hsent
    unfold ask_idea
    rw [hfind]
    simp [hsent]
  · intro sh pw idea hfind hpriv hgate hsent
    unfold ask_shared_idea
    rw [hfind]
    have h1 : (idea.visibility == "private") = false := by
      simp [hpriv]
    have h2 : (idea.visibility == "password" && !(shared_password_gate pw idea)) = false := by
      by_cases hv : idea.visibility = "password"
      · simp [hv, hgate hv]
      · simp [hv]
    simp [h1, h2, hsent]

/-- C4 witness: a sentinel completion on the owner route records exactly one
UnansweredQuestion with the question text and returns the apology; the same
oracle on the share route of the fixture changes nothing. -/
theorem C4_amended_sentinel_handling_witness :
    (ask_idea pubDB sentinelOracle 1 30 "Is it free?").1 =
      .ok { answer := "Sorry, chat is unavailable right now." } ∧
    (ask_idea pubDB sentinelOracle 1 30 "Is it free?").2.1.unanswered =
      [{ id := 200, idea_id := 30, question := "Is it free?" }] ∧
    (ask_idea pubDB sentinelOracle 1 30 "Is it free?").2.1.qa_history = [] ∧
    (ask_idea pubDB sentinelOracle 1 30 "Is it free?").2.1.ideas = [pubIdea] ∧
    (ask_shared_idea pubDB sentinelOracle 88 none "Is it free?").1 =
      .ok { answer := "Sorry, chat is unavailable right now." } ∧
    (ask_shared_idea pubDB sentinelOracle 88 none "Is it free?").2.1 = pubDB := by
  have h1 := (C4_amended_sentinel_handling pubDB sentinelOracle "Is it free?").1 1 30 pubIdea
    (by decide) (by decide)
  have h2 := (C4_amended_sentinel_handling pubDB sentinelOracle "Is it free?").2 88 none pubIdea
    (by decide) (by decide) (by intro h; exact absurd h (by decide)) (by decide)
  refine ⟨by rw [h1], by rw [h1]; decide, by rw [h1]; decide, by rw [h1]; decide,
    by rw [h2], by rw [h2]⟩

/-- C3: for a chat request by a caller who is not the Idea's owner, when the
completion succeeds (no sentinel), the stored ideas — in particular the Idea's
`title`/`public_md`/`private_md` — are unchanged, the parsed proposal is only
echoed in the response for preview, and a QAHistory entry for the question and
computed answer is still appended.  Both the authenticated route with a
non-owner caller and the anonymous share route are covered. -/
theorem C3_nonowner_chat_preserves_documents (db : DB) (oracle : Oracle) (q : String) :
    (∀ u idea_id idea, findIdea db idea_id = some idea →
       u ≠ idea.user_id →
       sentinelHit (oracle (ask_idea_context db idea) q) = false →
       (ask_idea db oracle u idea_id q).2.1.ideas = db.ideas ∧
       (ask_idea db oracle u idea_id q).2.1.qa_history =
         db.qa_history ++ [⟨idea.id, q, answer_or_ok (parse_structured_answer
             (oracle (ask_idea_context db idea) q))⟩] ∧
       (ask_idea db oracle u idea_id q).1 =
         .ok { answer := answer_or_ok (parse_structured_answer
                 (oracle (ask_idea_context db idea) q))
               images := response_images db idea
               references := response_references db idea
               updated_public_md := (parse_structured_answer
                 (oracle (ask_idea_context db idea) q)).pub
               updated_private_md := (parse_structured_answer
                 (oracle (ask_idea_context db idea) q)).priv
               updated_title := (parse_structured_answer
                 (oracle (ask_idea_context db idea) q)).title }) ∧
    (∀ sh pw idea, db.ideas.find? (fun x => x.share_hash == sh) = some idea →
       idea.visibility ≠ "private" →
       (idea.visibility = "password" → shared_password_gate pw idea = true) →
       sentinelHit (oracle (ask_shared_context db idea) q) = false →
       (ask_shared_idea db oracle sh pw q).2.1.ideas = db.ideas ∧
       (ask_shared_idea db oracle sh pw q).2.1.qa_history =
         db.qa_history ++ [⟨idea.id, q, answer_or_ok (parse_structured_answer
             (oracle (ask_shared_context db idea) q))⟩] ∧
       (ask_shared_idea db oracle sh pw q).1 =
         .ok { answer := answer_or_ok (parse_structured_answer
                 (oracle (ask_shared_context db idea) q))
               images := response_images db idea
               references := response_references db idea
               updated_public_md := (parse_structured_answer
                 (oracle (ask_shared_context db idea) q)).pub
               updated_private_md := none
               updated_title := none }) := by
  constructor
  · intro u idea_id idea hfind howner hsent
    have ho : (u == idea.user_id) = false := by simp [howner]
    unfold ask_idea
    rw [hfind]
    by_cases hk : pyIn "i don\x27t know" (pyLower (answer_or_ok (parse_structured_answer
        (oracle (ask_idea_context db idea) q)))) = true <;>
      simp [hsent, ho, hk]
  · intro sh pw idea hfind hpriv hgate hsent
    have h1 : (idea.visibility == "private") = false := by simp [hpriv]
    have h2 : (idea.visibility == "password" && !(shared_password_gate pw idea)) = false := by
      by_cases hv : idea.visibility = "password"
      · simp [hv, hgate hv]
      · simp [hv]
    unfold ask_shared_idea
    rw [hfind]
    simp [h1, h2, hsent]

/-- C3 witness: non-owner user 2 chats about the (private!) idea of user 1 on
the authenticated route with a successful completion proposing edits: the
stored idea is untouched, one QAHistory row is appended, and the proposal is
only echoed in the response. -/
theorem C3_nonowner_chat_preserves_documents_witness :
    (ask_idea privDB (fun _ _ => "ANSWER: ok\nUPDATED_PUBLIC_MD: NEW\nUPDATED_PRIVATE_MD: NEWV")
        2 10 "change it").2.1.ideas = privDB.ideas ∧
    (ask_idea privDB (fun _ _ => "ANSWER: ok\nUPDATED_PUBLIC_MD: NEW\nUPDATED_PRIVATE_MD: NEWV")
        2 10 "change it").2.1.qa_history =
      [{ idea_id := 10, question := "change it", answer := "ok" }] ∧
    (ask_idea privDB (fun _ _ => "ANSWER: ok\nUPDATED_PUBLIC_MD: NEW\nUPDATED_PRIVATE_MD: NEWV")
        2 10 "change it").1 =
      .ok { answer := "ok"
            images := []
            references := []
            updated_public_md := some "NEW"
            updated_private_md := some "NEWV"
            updated_title := none } := by
  have h := (C3_nonowner_chat_preserves_documents privDB
    (fun _ _ => "ANSWER: ok\nUPDATED_PUBLIC_MD: NEW\nUPDATED_PRIVATE_MD: NEWV") "change it").1
    2 10 privIdea (by decide) (by decide) (by decide)
  refine ⟨h.1, h.2.1.trans (by decide), h.2.2.trans (by decide)⟩

/-- C6: on the authenticated route with the caller being the owner and a
sentinel-free completion, the stored ideas are the image of the owner edit
application at the found idea, one QAHistory row is appended, and the edit
application has exactly the claimed field-wise behavior: a missing or empty
field leaves the stored field unchanged, a present non-empty markdown field
overwrites it, and a present title is applied exactly when its stripped value
is non-empty and differs from the current title. -/
theorem C6_owner_apply_characterization (db : DB) (oracle : Oracle) (q : String)
    (u idea_id : Nat) (idea : Idea)
    (hfind : findIdea db idea_id = some idea)
    (howner : u = idea.user_id)
    (hsent : sentinelHit (oracle (ask_idea_context db idea) q) = false) :
    (ask_idea db oracle u idea_id q).2.1.ideas =
      db.ideas.map (fun x => if x.id == idea.id then
        apply_owner_edits x (parse_structured_answer
          (oracle (ask_idea_context db idea) q)) else x) ∧
    (ask_idea db oracle u idea_id q).2.1.qa_history =
      db.qa_history ++ [⟨idea.id, q, answer_or_ok (parse_structured_answer
          (oracle (ask_idea_context db idea) q))⟩] ∧
    (∀ (i : Idea) (p : ParsedAnswer),
      ((∀ t, p.title = some t → (pyStrip t = "" ∨ pyStrip t = i.title)) →
        (apply_owner_edits i p).title = i.title) ∧
      (∀ t, p.title = some t → pyStrip t ≠ "" → pyStrip t ≠ i.title →
        (apply_owner_edits i p).title = pyStrip t) ∧
      ((p.pub = none ∨ p.pub = some "") →
        (apply_owner_edits i p).public_md = i.public_md) ∧
      (∀ v, p.pub = some v → v ≠ "" →
        (apply_owner_edits i p).public_md = some v) ∧
      ((p.priv = none ∨ p.priv = some "") →
        (apply_owner_edits i p).private_md = i.private_md) ∧
      (∀ v, p.priv = some v → v ≠ "" →
        (apply_owner_edits i p).private_md = some v)) := by
  refine ⟨?_, ?_, ?_⟩
  · unfold ask_idea
    rw [hfind]
    by_cases hk : pyIn "i don\x27t know" (pyLower (answer_or_ok (parse_structured_answer
        (oracle (ask_idea_context db idea) q)))) = true <;>
      simp [hsent, howner, hk]
  · unfold ask_idea
    rw [hfind]
    by_cases hk : pyIn "i don\x27t know" (pyLower (answer_or_ok (parse_structured_answer
        (oracle (ask_idea_context db idea) q)))) = true <;>
      simp [hsent, howner, hk]
  · intro i p
    have hemp : pyStrip "" = "" := rfl
    refine ⟨?_, ?_, ?_, ?_, ?_, ?_⟩ <;>
      unfold apply_owner_edits <;>
      cases hpt : p.title <;> cases hpb : p.pub <;> cases hpv : p.priv <;>
      simp_all <;> (repeat' split) <;> simp_all

/-- C6 witness: the spec's scenario — the owner (user 1) asks to rename the
project; the completion returns
`ANSWER:\nDone.\nUPDATED_TITLE:\nAcme\nUPDATED_PUBLIC_MD:\n\nUPDATED_PRIVATE_MD:\n`;
the stored idea gets `title = "Acme"` with `public_md`/`private_md` unchanged,
and exactly one QAHistory row is appended. -/
theorem C6_owner_apply_characterization_witness :
    (ask_idea privDB acmeOracle 1 10 "rename the project to Acme").2.1.ideas =
      [{ privIdea with title := "Acme" }] ∧
    (ask_idea privDB acmeOracle 1 10 "rename the project to Acme").2.1.qa_history =
      [{ idea_id := 10, question := "rename the project to Acme", answer := "Done." }] := by
  have h := C6_owner_apply_characterization privDB acmeOracle
    "rename the project to Acme" 1 10 privIdea (by decide) (by decide) (by decide)
  exact ⟨h.1.trans (by decide), h.2.1.trans (by decide)⟩

/-- Helper: `find?` commutes with a map that preserves the predicate. -/
theorem find?_map_keyed {α : Type} (g : α → α) (p : α → Bool)
    (hp : ∀ x, p (g x) = p x) (l : List α) :
    (l.map g).find? p = (l.find? p).map g := by
  rw [List.find?_map]
  have h : (p ∘ g) = p := funext hp
  rw [h]

/-- C7: resolving an UnansweredQuestion is a single terminal transition: on
success (idea found, caller owns it, question found and attached to it) the
route reports success, appends exactly one QAHistory row from the stored
question and the supplied answer, appends exactly one RepoItem of type `qa`
and visibility `private` encoding the same pair, and deletes the
UnansweredQuestion — for EVERY completion backend, so a failing or garbage
markdown-regeneration never rolls these back; and a second resolution attempt
for the same question id returns not-found and changes nothing. -/
theorem C7_resolution_terminal (db : DB) (oracle : Oracle) (u idea_id uq_id : Nat)
    (ans : String) (idea : Idea) (uq : UnansweredQuestion)
    (hfind : findIdea db idea_id = some idea)
    (howner : idea.user_id = u)
    (huq : db.unanswered.find? (fun x => x.id == uq_id) = some uq)
    (hul : uq.idea_id = idea.id) :
    (answer_unanswered db oracle u idea_id uq_id ans).1 =
      .ok "Unanswered resolved, markdown updated" ∧
    (answer_unanswered db oracle u idea_id uq_id ans).2.1.qa_history =
      db.qa_history ++ [{ idea_id := idea.id, question := uq.question, answer := ans }] ∧
    (answer_unanswered db oracle u idea_id uq_id ans).2.1.repo_items =
      db.repo_items ++
        [⟨db.next_id, idea.id, "Q: " ++ uq.question, "qa", none,
          "A: " ++ ans, "private"⟩] ∧
    (answer_unanswered db oracle u idea_id uq_id ans).2.1.unanswered =
      db.unanswered.filter (fun x => x.id != uq_id) ∧
    (answer_unanswered (answer_unanswered db oracle u idea_id uq_id ans).2.1
        oracle u idea_id uq_id ans).1 =
      .err 404 "Unanswered question not found" ∧
    (answer_unanswered (answer_unanswered db oracle u idea_id uq_id ans).2.1
        oracle u idea_id uq_id ans).2.1 =
      (answer_unanswered db oracle u idea_id uq_id ans).2.1 := by
  have hid : idea.id = idea_id := by
    have h := List.find?_some hfind
    simpa using h
  have ho : (idea.user_id != u) = false := by simp [howner]
  have hu2 : (uq.idea_id != idea.id) = false := by simp [hul]
  have hstep : answer_unanswered db oracle u idea_id uq_id ans =
      (.ok "Unanswered resolved, markdown updated",
       { db with
           ideas := db.ideas.map (fun x => if x.id == idea.id then
             { idea with
                 public_md := if (parse_markdown_update (oracle
                     (refine_prompt idea uq.question ans)
                     "Update markdown with clarification")).public_md != ""
                   then some (parse_markdown_update (oracle
                     (refine_prompt idea uq.question ans)
                     "Update markdown with clarification")).public_md
                   else idea.public_md
                 private_md := if (parse_markdown_update (oracle
                     (refine_prompt idea uq.question ans)
                     "Update markdown with clarification")).private_md != ""
                   then some (parse_markdown_update (oracle
                     (refine_prompt idea uq.question ans)
                     "Update markdown with clarification")).private_md
                   else idea.private_md } else x)
           repo_items := db.repo_items ++
             [⟨db.next_id, idea.id, "Q: " ++ uq.question, "qa", none,
               "A: " ++ ans, "private"⟩]
           qa_history := db.qa_history ++ [⟨idea.id, uq.question, ans⟩]
           unanswered := db.unanswered.filter (fun x => x.id != uq_id)
           next_id := db.next_id + 1 },
       [(refine_prompt idea uq.question ans, "Update markdown with clarification")]) := by
    unfold answer_unanswered
    rw [hfind, huq]
    simp [ho, hu2]
  have hfind2 : findIdea ((answer_unanswered db oracle u idea_id uq_id ans).2.1) idea_id =
      some { idea with
        public_md := if (parse_markdown_update (oracle
            (refine_prompt idea uq.question ans)
            "Update markdown with clarification")).public_md != ""
          then some (parse_markdown_update (oracle
            (refine_prompt idea uq.question ans)
            "Update markdown with clarification")).public_md
          else idea.public_md
        private_md := if (parse_markdown_update (oracle
            (refine_prompt idea uq.question ans)
            "Update markdown with clarification")).private_md != ""
          then some (parse_markdown_update (oracle
            (refine_prompt idea uq.question ans)
            "Update markdown with clarification")).private_md
          else idea.private_md } := by
    rw [hstep]
    unfold findIdea
    rw [find?_map_keyed]
    · rw [show db.ideas.find? (fun x => x.id == idea_id) = some idea from hfind]
      simp
    · intro x
      by_cases hx : (x.id == idea.id) = true
      · simp only [hx, if_true]
        have hxe : x.id = idea.id := by simpa using hx
        simp [hxe]
      · simp [hx]
  have huq2 : ((answer_unanswered db oracle u idea_id uq_id ans).2.1).unanswered.find?
      (fun x => x.id == uq_id) = none := by
    rw [hstep]
    rw [List.find?_eq_none]
    intro a ha
    have hm := List.mem_filter.mp ha
    simpa using hm.2
  have hstep2 : answer_unanswered ((answer_unanswered db oracle u idea_id uq_id ans).2.1)
      oracle u idea_id uq_id ans =
      (.err 404 "Unanswered question not found",
       (answer_unanswered db oracle u idea_id uq_id ans).2.1, []) := by
    rw [hstep] at hfind2 huq2 ⊢
    unfold answer_unanswered
    rw [hfind2, huq2]
    simp [howner]
  exact ⟨by rw [hstep], by rw [hstep], by rw [hstep], by rw [hstep],
    by rw [hstep2], by rw [hstep2]⟩

/-- C7 witness: the owner resolves the fixture's unanswered question while the
completion backend only returns the unavailability sentinel — the QAHistory
row and the private `qa` RepoItem are still created and the question is gone;
resolving the same id again yields not-found and changes nothing. -/
theorem C7_resolution_terminal_witness :
    (answer_unanswered c7DB sentinelOracle 1 30 60 "Because timing.").1 =
      .ok "Unanswered resolved, markdown updated" ∧
    (answer_unanswered c7DB sentinelOracle 1 30 60 "Because timing.").2.1.qa_history =
      [⟨30, "Why now?", "Because timing."⟩] ∧
    (answer_unanswered c7DB sentinelOracle 1 30 60 "Because timing.").2.1.repo_items =
      [⟨300, 30, "Q: Why now?", "qa", none, "A: Because timing.", "private"⟩] ∧
    (answer_unanswered c7DB sentinelOracle 1 30 60 "Because timing.").2.1.unanswered = [] ∧
    (answer_unanswered (answer_unanswered c7DB sentinelOracle 1 30 60 "Because timing.").2.1
        sentinelOracle 1 30 60 "Because timing.").1 =
      .err 404 "Unanswered question not found" ∧
    (answer_unanswered (answer_unanswered c7DB sentinelOracle 1 30 60 "Because timing.").2.1
        sentinelOracle 1 30 60 "Because timing.").2.1 =
      (answer_unanswered c7DB sentinelOracle 1 30 60 "Because timing.").2.1 := by
  have h := C7_resolution_terminal c7DB sentinelOracle 1 30 60 "Because timing."
    pubIdea ⟨60, 30, "Why now?"⟩ (by decide) (by decide) (by decide) (by decide)
  exact ⟨h.1, h.2.1.trans (by decide), h.2.2.1.trans (by decide),
    h.2.2.2.1.trans (by decide), h.2.2.2.2.1, h.2.2.2.2.2⟩

/-- Helper: the head of `dropWhile p` never satisfies `p`. -/
theorem dropWhile_head_not (p : Char → Bool) :
    ∀ (l : List Char) c t, l.dropWhile p = c :: t → p c = false := by
  intro l
  induction l with
  | nil => intro c t h; simp [List.dropWhile] at h
  | cons x xs ih =>
    intro c t h
    by_cases hx : p x = true
    · rw [List.dropWhile_cons_of_pos hx] at h
      exact ih c t h
    · rw [List.dropWhile_cons_of_neg hx] at h
      cases h
      simpa using hx

/-- Helper: stripping on the right yields a prefix. -/
theorem stripRightL_isPrefix (l : List Char) : stripRightL l <+: l := by
  unfold stripRightL
  have h : l.reverse.dropWhile isPySpace <:+ l.reverse := List.dropWhile_suffix _
  have h2 := List.reverse_prefix.mpr (by simpa using h)
  simpa using h2

/-- Helper: the head of a fully stripped character list is not whitespace. -/
theorem pyStripL_head_not (l : List Char) :
    ∀ c t, pyStripL l = c :: t → isPySpace c = false := by
  intro c t h
  obtain ⟨r, hr⟩ := stripRightL_isPrefix (stripLeftL l)
  unfold pyStripL at h
  rw [h] at hr
  exact dropWhile_head_not isPySpace l c (t ++ r) (by simpa using hr.symm)

/-- Helper: greedy `\s*` has only the empty candidate on stripped text. -/
theorem wsSplits_stripped (l : List Char)
    (h : ∀ c t, l = c :: t → isPySpace c = false) : wsSplits l = [l] := by
  cases l with
  | nil => rfl
  | cons c t =>
    unfold wsSplits
    rw [h c t rfl]
    simp

/-- Helper: `SECTION_RE` cannot match text that does not start with the
`ANSWER:` header. -/
theorem sectionMatch_none (s : List Char)
    (hhead : ∀ c t, s = c :: t → isPySpace c = false)
    (hans : matchLitCI ansLit s = none) :
    sectionMatch s = none := by
  unfold sectionMatch
  rw [wsSplits_stripped s hhead]
  simp [List.findSome?, groupScan, hans]

/-- C8: for every input lacking the `ANSWER:` header (the stripped text does
not start with it, case-insensitively), `parse_structured_answer` returns the
whole stripped text as the answer and `None` for title, public markdown and
private markdown; the parser is a total function, so no exception is
possible. -/
theorem C8_missing_header_falls_back (raw : String)
    (h : hasAnswerHeaderCI raw = false) :
    parse_structured_answer raw =
      { answer := pyStrip raw, title := none, pub := none, priv := none } := by
  have hans : matchLitCI ansLit (pyStripL raw.toList) = none := by
    unfold hasAnswerHeaderCI at h
    cases hm : matchLitCI ansLit (pyStripL raw.toList) with
    | none => rfl
    | some v =>
      rw [hm] at h
      simp at h
  unfold parse_structured_answer
  simp only [sectionMatch_none _ (pyStripL_head_not _) hans]
  rfl

/-- C8 witness: a completion that ignored the template entirely becomes the
answer verbatim (stripped), with no structured fields. -/
theorem C8_missing_header_falls_back_witness :
    hasAnswerHeaderCI "  The model rambled.\nANSWER: too late\n" = false ∧
    parse_structured_answer "  The model rambled.\nANSWER: too late\n" =
      { answer := "The model rambled.\nANSWER: too late",
        title := none, pub := none, priv := none } := by
  refine ⟨by decide, ?_⟩
  exact (C8_missing_header_falls_back _ (by decide)).trans (by decide)

/-! ### Lemmas for C9 (the delimiter-block parser on balanced inputs) -/

/-- Helper: a literal always matches itself (case-insensitively). -/
theorem matchLitCI_self : ∀ (m r : List Char), matchLitCI m (m ++ r) = some r := by
  intro m
  induction m with
  | nil => intro r; rfl
  | cons c cs ih => intro r; simp [matchLitCI, ih]

/-- Helper: a nonempty literal never matches the empty text. -/
theorem matchLitCI_nil {n : List Char} (hn : n ≠ []) : matchLitCI n [] = none := by
  cases n with
  | nil => exact absurd rfl hn
  | cons c cs => rfl

/-- Helper: a successful match of a nonempty literal happens inside the text. -/
theorem matchLitCI_hit_le {n t : List Char} {i : Nat} (hn : n ≠ [])
    (h : (matchLitCI n (t.drop i)).isSome = true) : i ≤ t.length := by
  by_contra hgt
  have hnil : t.drop i = [] := List.drop_eq_nil_of_le (Nat.le_of_lt (Nat.lt_of_not_le hgt))
  rw [hnil, matchLitCI_nil hn] at h
  simp at h

/-- Helper: when the needle occurs exactly once, any two hit positions agree. -/
theorem countCI_one_unique {n t : List Char} {p q : Nat} (hn : n ≠ [])
    (hcount : countCI n t = 1)
    (hp : (matchLitCI n (t.drop p)).isSome = true)
    (hq : (matchLitCI n (t.drop q)).isSome = true) : p = q := by
  have hmem : ∀ j, (matchLitCI n (t.drop j)).isSome = true → j ∈ hitsCI n t := by
    intro j hj
    unfold hitsCI
    rw [List.mem_filter, List.mem_range]
    exact ⟨Nat.lt_succ_of_le (matchLitCI_hit_le hn hj), hj⟩
  obtain ⟨a, ha⟩ := List.length_eq_one.mp hcount
  have hpa := hmem p hp
  have hqa := hmem q hq
  rw [ha, List.mem_singleton] at hpa hqa
  rw [hpa, hqa]

/-- Helper: `findSome?` succeeds and its value satisfies `P` when some element
succeeds and every possible success satisfies `P`. -/
theorem findSome?_exists_of_all {α β : Type} (l : List α) (f : α → Option β)
    (P : β → Prop) (hex : ∃ x ∈ l, (f x).isSome = true)
    (hall : ∀ x ∈ l, ∀ y, f x = some y → P y) :
    ∃ y, l.findSome? f = some y ∧ P y := by
  induction l with
  | nil => obtain ⟨x, hx, -⟩ := hex; simp at hx
  | cons a as ih =>
    cases hfa : f a with
    | some y =>
      exact ⟨y, by simp [List.findSome?, hfa], hall a (List.mem_cons_self a as) y hfa⟩
    | none =>
      obtain ⟨x, hx, hxs⟩ := hex
      rcases List.mem_cons.mp hx with hxa | hxas
      · rw [hxa, hfa] at hxs; simp at hxs
      · obtain ⟨y, hy, hPy⟩ := ih ⟨x, hxas, hxs⟩
          (fun x hx => hall x (List.mem_cons_of_mem a hx))
        exact ⟨y, by simp [List.findSome?, hfa, hy], hPy⟩

/-- Helper: every `\s*` candidate is the input minus an all-whitespace front. -/
theorem wsSplits_mem : ∀ {l x : List Char}, x ∈ wsSplits l →
    ∃ w, l = w ++ x ∧ ∀ c ∈ w, isPySpace c = true := by
  intro l
  induction l with
  | nil =>
    intro x hx
    simp [wsSplits] at hx
    exact ⟨[], by simp [hx]⟩
  | cons c cs ih =>
    intro x hx
    unfold wsSplits at hx
    by_cases hc : isPySpace c = true
    · rw [if_pos hc] at hx
      rcases List.mem_append.mp hx with hx1 | hx2
      · obtain ⟨w, hw, hws⟩ := ih hx1
        refine ⟨c :: w, by simp [hw], ?_⟩
        intro d hd
        rcases List.mem_cons.mp hd with hd1 | hd2
        · rw [hd1]; exact hc
        · exact hws d hd2
      · rw [List.mem_singleton] at hx2
        exact ⟨[], by simp [hx2]⟩
    · rw [if_neg hc] at hx
      rw [List.mem_singleton] at hx
      exact ⟨[], by simp [hx]⟩

/-- Helper: consuming no whitespace is always a `\s*` candidate. -/
theorem wsSplits_self : ∀ (l : List Char), l ∈ wsSplits l := by
  intro l
  cases l with
  | nil => simp [wsSplits]
  | cons c cs =>
    unfold wsSplits
    by_cases hc : isPySpace c = true
    · rw [if_pos hc]; simp
    · rw [if_neg hc]; simp

/-- Helper: unpacking a successful match of a cons literal. -/
theorem matchLitCI_cons_some {n0 : Char} {ns s r : List Char}
    (h : matchLitCI (n0 :: ns) s = some r) :
    ∃ c cs, s = c :: cs ∧ n0.toLower = c.toLower ∧ matchLitCI ns cs = some r := by
  cases s with
  | nil => simp [matchLitCI] at h
  | cons c cs =>
    unfold matchLitCI at h
    split at h
    · exact ⟨c, cs, rfl, by assumption, h⟩
    · simp at h

/-- Helper: the lazy scan stops exactly at the first needle occurrence. -/
theorem lazyUntilCI_eq (needle : List Char) :
    ∀ (u v r : List Char), matchLitCI needle v = some r →
      (∀ i, i < u.length → matchLitCI needle ((u ++ v).drop i) = none) →
      lazyUntilCI needle (u ++ v) = some (u, r) := by
  intro u
  induction u with
  | nil =>
    intro v r hv _
    cases v with
    | nil => simp [lazyUntilCI, hv]
    | cons c cs => simp [lazyUntilCI, hv]
  | cons c u' ih =>
    intro v r hv hno
    have h0 : matchLitCI needle (c :: (u' ++ v)) = none := by
      have := hno 0 (Nat.succ_pos _)
      simpa using this
    have hrec := ih v r hv (fun i hi => by
      have := hno (i + 1) (Nat.succ_lt_succ hi)
      simpa using this)
    show lazyUntilCI needle (c :: (u' ++ v)) = some (c :: u', r)
    unfold lazyUntilCI
    simp [h0, hrec]

/-- Helper: a successful lazy scan decomposes the input. -/
theorem lazyUntilCI_some (needle : List Char) :
    ∀ (s c r : List Char), lazyUntilCI needle s = some (c, r) →
      ∃ m, s = c ++ m ∧ matchLitCI needle m = some r := by
  intro s
  induction s with
  | nil =>
    intro c r h
    cases hm : matchLitCI needle [] with
    | none => simp [lazyUntilCI, hm] at h
    | some v =>
      simp [lazyUntilCI, hm] at h
      exact ⟨[], by simp [h.1], by rw [hm, h.2]⟩
  | cons x xs ih =>
    intro c r h
    unfold lazyUntilCI at h
    cases hm : matchLitCI needle (x :: xs) with
    | some v =>
      rw [hm] at h
      simp at h
      exact ⟨x :: xs, by simp [← h.1], by rw [hm, h.2]⟩
    | none =>
      rw [hm] at h
      cases hrec : lazyUntilCI needle xs with
      | none => rw [hrec] at h; simp at h
      | some p =>
        rw [hrec] at h
        simp at h
        obtain ⟨m, hm1, hm2⟩ := ih p.1 p.2 (by rw [hrec])
        refine ⟨m, ?_, hm2.trans (by rw [h.2])⟩
        rw [← h.1, hm1]
        simp

/-- Helper: an all-whitespace front does not change the stripped value. -/
theorem pyStripL_ws_front :
    ∀ (w l : List Char), (∀ c ∈ w, isPySpace c = true) →
      pyStripL (w ++ l) = pyStripL l := by
  intro w
  induction w with
  | nil => intro l _; rfl
  | cons c w' ih =>
    intro l hw
    have hc : isPySpace c = true := hw c (List.mem_cons_self c w')
    have := ih l (fun d hd => hw d (List.mem_cons_of_mem c hd))
    unfold pyStripL stripLeftL at *
    rw [List.cons_append, List.dropWhile_cons_of_pos hc]
    exact this

/-- Helper: the scan skips positions where the start marker cannot match. -/
theorem searchBlock_append (startM endM : List Char) :
    ∀ (a t : List Char),
      (∀ i, i < a.length → matchLitCI startM ((a ++ t).drop i) = none) →
      searchBlock startM endM (a ++ t) = searchBlock startM endM t := by
  intro a
  induction a with
  | nil => intro t _; rfl
  | cons c a' ih =>
    intro t hno
    have h0 : matchLitCI startM (c :: (a' ++ t)) = none := by
      have := hno 0 (Nat.succ_pos _)
      simpa using this
    have hrec := ih t (fun i hi => by
      have := hno (i + 1) (Nat.succ_lt_succ hi)
      simpa using this)
    have htb : tryBlock startM endM (c :: (a' ++ t)) = none := by
      unfold tryBlock
      rw [h0]
      rfl
    have hstep : searchBlock startM endM (c :: (a' ++ t)) =
        searchBlock startM endM (a' ++ t) := by
      conv_lhs => unfold searchBlock
      rw [htb]
    exact hstep.trans hrec

/-- Helper: a successful anchored match at the current position wins the scan. -/
theorem searchBlock_head_some {startM endM t : List Char} {c : List Char}
    (hsm : startM ≠ []) (h : tryBlock startM endM t = some c) :
    searchBlock startM endM t = some c := by
  cases t with
  | nil =>
    rw [show tryBlock startM endM [] = none by
      unfold tryBlock; rw [matchLitCI_nil hsm]; rfl] at h
    simp at h
  | cons x xs =>
    unfold searchBlock
    rw [h]


/-- Helper: dropping the length of a prefix, stated with a flexible count. -/
theorem drop_len_append {l₁ l₂ : List Char} {n : Nat} (h : n = l₁.length) :
    (l₁ ++ l₂).drop n = l₂ := by
  rw [h]
  exact List.drop_left l₁ l₂

/-- Helper: a shared first character reduces a case-insensitive match. -/
theorem matchLitCI_cons_same (c : Char) (n s : List Char) :
    matchLitCI (c :: n) (c :: s) = matchLitCI n s := by
  show (if c.toLower = c.toLower then matchLitCI n s else none) = matchLitCI n s
  rw [if_pos rfl]

/-- Helper: `nlContent` on a nonempty candidate, as an equation. -/
theorem nlContent_cons (endM : List Char) (c : Char) (r2 : List Char) :
    nlContent endM (c :: r2) =
      if c = '\n' then (lazyUntilCI ('\n' :: endM) r2).map Prod.fst else none := rfl

/-- Helper (main lemma for C9): on a text containing a balanced block —
unique start marker, then newline, body, newline, unique end marker —
the `re.search` embedding finds the block and its captured content strips to
the body. -/
theorem searchBlock_balanced (startM endM a body b : List Char)
    (hsm : startM ≠ []) (hem : endM ≠ [])
    (hsc : countCI startM (a ++ (startM ++ ('\n' :: (body ++ ('\n' :: (endM ++ b)))))) = 1)
    (hec : countCI endM (a ++ (startM ++ ('\n' :: (body ++ ('\n' :: (endM ++ b)))))) = 1) :
    ∃ content,
      searchBlock startM endM
        (a ++ (startM ++ ('\n' :: (body ++ ('\n' :: (endM ++ b)))))) = some content ∧
      pyStripL content = pyStripL body := by
  set rest : List Char := '\n' :: (body ++ ('\n' :: (endM ++ b))) with hrest
  set text : List Char := a ++ (startM ++ rest) with htext
  have hdropS : text.drop a.length = startM ++ rest := by
    rw [htext, List.drop_left]
  have hdropSR : text.drop (a.length + startM.length) = rest := by
    have h1 : text = (a ++ startM) ++ rest := by rw [htext, List.append_assoc]
    rw [h1]
    exact drop_len_append (by simp)
  have hrest_drop : ∀ j, rest.drop j = text.drop (a.length + startM.length + j) := by
    intro j
    rw [← hdropSR, List.drop_drop]
  have hhitS : matchLitCI startM (text.drop a.length) = some rest := by
    rw [hdropS]; exact matchLitCI_self startM rest
  have H_S : ∀ i, (matchLitCI startM (text.drop i)).isSome = true → i = a.length := by
    intro i hi
    exact countCI_one_unique hsm hsc hi (by simp [hhitS])
  have hPdes : rest = ('\n' :: (body ++ ['\n'])) ++ (endM ++ b) := by
    rw [hrest]; simp
  have hdropE : rest.drop (body.length + 2) = endM ++ b := by
    rw [hPdes]
    exact drop_len_append (by simp)
  have H_E : ∀ j, (matchLitCI endM (rest.drop j)).isSome = true → j = body.length + 2 := by
    intro j hj
    rw [hrest_drop j] at hj
    have hself : matchLitCI endM
        (text.drop (a.length + startM.length + (body.length + 2))) = some b := by
      rw [← hrest_drop (body.length + 2), hdropE]
      exact matchLitCI_self endM b
    have hdes : (matchLitCI endM
        (text.drop (a.length + startM.length + (body.length + 2)))).isSome = true := by
      simp [hself]
    have := countCI_one_unique hem hec hj hdes
    omega
  have htry : ∃ content, tryBlock startM endM (startM ++ rest) = some content ∧
      pyStripL content = pyStripL body := by
    have hbind : tryBlock startM endM (startM ++ rest) =
        (wsSplits rest).findSome? (nlContent endM) := by
      unfold tryBlock
      rw [matchLitCI_self]
      rfl
    rw [hbind]
    apply findSome?_exists_of_all
    · -- the zero-whitespace candidate succeeds
      refine ⟨rest, wsSplits_self rest, ?_⟩
      have hv : matchLitCI ('\n' :: endM) ('\n' :: (endM ++ b)) = some b := by
        rw [matchLitCI_cons_same]
        exact matchLitCI_self endM b
      have hno : ∀ i, i < body.length →
          matchLitCI ('\n' :: endM) ((body ++ ('\n' :: (endM ++ b))).drop i) = none := by
        intro i hi
        cases hm : matchLitCI ('\n' :: endM) ((body ++ ('\n' :: (endM ++ b))).drop i) with
        | none => rfl
        | some v =>
          obtain ⟨c, cs, hshape, -, hcs⟩ := matchLitCI_cons_some hm
          have hdrop1 : (body ++ ('\n' :: (endM ++ b))).drop (i + 1) = cs := by
            have h1 := congrArg (List.drop 1) hshape
            rw [List.drop_drop] at h1
            simpa using h1
          have hr2 : body ++ ('\n' :: (endM ++ b)) = rest.drop 1 := by
            rw [hrest]
            rfl
          have hcs2 : cs = rest.drop (i + 2) := by
            rw [hr2, List.drop_drop] at hdrop1
            rw [← hdrop1]
            congr 1
            omega
          have hhit : (matchLitCI endM (rest.drop (i + 2))).isSome = true := by
            simp [← hcs2, hcs]
          have := H_E (i + 2) hhit
          omega
      have hlz : lazyUntilCI ('\n' :: endM) (body ++ ('\n' :: (endM ++ b))) =
          some (body, b) := lazyUntilCI_eq _ body ('\n' :: (endM ++ b)) b hv hno
      rw [hrest, nlContent_cons, if_pos rfl, hlz]
      rfl
    · -- every successful candidate strips to the body
      intro x hx y hy
      obtain ⟨w, hw, hws⟩ := wsSplits_mem hx
      cases x with
      | nil => simp [nlContent] at hy
      | cons c r2 =>
        rw [nlContent_cons] at hy
        by_cases hc : c = '\n'
        · subst hc
          rw [if_pos rfl] at hy
          cases hlz : lazyUntilCI ('\n' :: endM) r2 with
          | none => rw [hlz] at hy; simp at hy
          | some p =>
            rw [hlz] at hy
            simp at hy
            obtain ⟨m, hm1, hm2⟩ := lazyUntilCI_some ('\n' :: endM) r2 p.1 p.2 (by
              rw [hlz])
            obtain ⟨c0, m2, hm3, -, hm4⟩ := matchLitCI_cons_some hm2
            have hrw : rest = ((w ++ ('\n' :: p.1)) ++ [c0]) ++ m2 := by
              rw [hw, hm1, hm3]
              simp
            have hj : rest.drop (w.length + p.1.length + 2) = m2 := by
              rw [hrw]
              exact drop_len_append (by
                simp only [List.length_append, List.length_cons, List.length_nil]
                omega)
            have hhit : (matchLitCI endM
                (rest.drop (w.length + p.1.length + 2))).isSome = true := by
              simp [hj, hm4]
            have hlen2 := H_E _ hhit
            have hPP : ((w ++ ('\n' :: p.1)) ++ [c0]) ++ m2 =
                (('\n' :: body) ++ ['\n']) ++ (endM ++ b) := by
              rw [← hrw, hPdes]
              simp
            have heq : (w ++ ('\n' :: p.1)) ++ [c0] = ('\n' :: body) ++ ['\n'] :=
              (List.append_inj hPP (by
                simp only [List.length_append, List.length_cons, List.length_nil]
                omega)).1
            have heq2 : w ++ ('\n' :: p.1) = '\n' :: body :=
              (List.append_inj heq (by
                simp only [List.length_append, List.length_cons, List.length_nil]
                omega)).1
            have hstrip : pyStripL p.1 = pyStripL body := by
              have hl : w ++ ('\n' :: p.1) = (w ++ ['\n']) ++ p.1 := by simp
              have hr : ('\n' :: body : List Char) = ['\n'] ++ body := rfl
              rw [hl, hr] at heq2
              have h1 := pyStripL_ws_front (w ++ ['\n']) p.1 (by
                intro d hd
                rcases List.mem_append.mp hd with hd1 | hd2
                · exact hws d hd1
                · rw [List.mem_singleton] at hd2
                  rw [hd2]; rfl)
              have h2 := pyStripL_ws_front ['\n'] body (by
                intro d hd
                rw [List.mem_singleton] at hd
                rw [hd]; rfl)
              rw [← h1, ← h2, heq2]
            rw [← hy]
            exact hstrip
        · rw [if_neg hc] at hy
          simp at hy
  obtain ⟨content, htb, hcontent⟩ := htry
  refine ⟨content, ?_, hcontent⟩
  have hskip : searchBlock startM endM text = searchBlock startM endM (startM ++ rest) := by
    rw [htext]
    apply searchBlock_append
    intro i hi
    cases hm : matchLitCI startM ((a ++ (startM ++ rest)).drop i) with
    | none => rfl
    | some v =>
      have hhit : (matchLitCI startM (text.drop i)).isSome = true := by
        rw [htext]
        simp [hm]
      have := H_S i hhit
      omega
  rw [hskip]
  exact searchBlock_head_some hsm htb

/-- C9: for every input containing balanced `### PUBLIC_MD_START/END` and
`### PRIVATE_MD_START/END` blocks — formalized as: the input decomposes as
arbitrary text around the two delimiter blocks and each of the four markers
occurs exactly once (case-insensitively) — `parse_markdown_update` returns
exactly the text enclosed by each pair of delimiters, trimmed of surrounding
whitespace, as `public_md` and `private_md` respectively. -/
theorem C9_balanced_blocks_extract (pre pub mid priv post : String)
    (h1 : countCI pubStartM (mdTemplate pre pub mid priv post).toList = 1)
    (h2 : countCI pubEndM (mdTemplate pre pub mid priv post).toList = 1)
    (h3 : countCI privStartM (mdTemplate pre pub mid priv post).toList = 1)
    (h4 : countCI privEndM (mdTemplate pre pub mid priv post).toList = 1) :
    parse_markdown_update (mdTemplate pre pub mid priv post) =
      { public_md := pyStrip pub, private_md := pyStrip priv } := by
  have htextPub : (mdTemplate pre pub mid priv post).toList =
      pre.toList ++ (pubStartM ++ ('\n' :: (pub.toList ++ ('\n' :: (pubEndM ++
        (mid.toList ++ (privStartM ++ ('\n' :: (priv.toList ++
          ('\n' :: (privEndM ++ post.toList))))))))))) := by
    simp [mdTemplate, String.toList, pubStartM, pubEndM, privStartM, privEndM]
  have htextPriv : (mdTemplate pre pub mid priv post).toList =
      (pre.toList ++ (pubStartM ++ ('\n' :: (pub.toList ++ ('\n' :: (pubEndM ++
        mid.toList)))))) ++ (privStartM ++ ('\n' :: (priv.toList ++
          ('\n' :: (privEndM ++ post.toList))))) := by
    simp [mdTemplate, String.toList, pubStartM, pubEndM, privStartM, privEndM]
  obtain ⟨c1, hc1, hs1⟩ := searchBlock_balanced pubStartM pubEndM pre.toList pub.toList
    (mid.toList ++ (privStartM ++ ('\n' :: (priv.toList ++ ('\n' :: (privEndM ++ post.toList))))))
    (by decide) (by decide)
    (by rw [← htextPub]; exact h1) (by rw [← htextPub]; exact h2)
  rw [← htextPub] at hc1
  obtain ⟨c2, hc2, hs2⟩ := searchBlock_balanced privStartM privEndM
    (pre.toList ++ (pubStartM ++ ('\n' :: (pub.toList ++ ('\n' :: (pubEndM ++ mid.toList))))))
    priv.toList post.toList
    (by decide) (by decide)
    (by rw [← htextPriv]; exact h3) (by rw [← htextPriv]; exact h4)
  rw [← htextPriv] at hc2
  unfold parse_markdown_update
  simp only [hc1, hc2]
  simp [pyStrip, hs1, hs2, String.toList]

/-- C9 witness: a balanced refinement-path response with banter around the
blocks — the parser returns exactly the enclosed texts, trimmed. -/
theorem C9_balanced_blocks_extract_witness :
    countCI pubStartM (mdTemplate "Chat says:\n" "Hello  " "\n" "Secret" "\nBye").toList = 1 ∧
    countCI pubEndM (mdTemplate "Chat says:\n" "Hello  " "\n" "Secret" "\nBye").toList = 1 ∧
    countCI privStartM (mdTemplate "Chat says:\n" "Hello  " "\n" "Secret" "\nBye").toList = 1 ∧
    countCI privEndM (mdTemplate "Chat says:\n" "Hello  " "\n" "Secret" "\nBye").toList = 1 ∧
    parse_markdown_update (mdTemplate "Chat says:\n" "Hello  " "\n" "Secret" "\nBye") =
      { public_md := "Hello", private_md := "Secret" } := by
  refine ⟨by decide, by decide, by decide, by decide, ?_⟩
  exact (C9_balanced_blocks_extract "Chat says:\n" "Hello  " "\n" "Secret" "\nBye"
    (by decide) (by decide) (by decide) (by decide)).trans (by decide)
